import Mathlib

/-!
Verification development for the codeGate static analyzer and risk engine.

This file gives a shallow embedding, in Lean 4, of the two core modules of
the repository:

* `src/codegate/core/risk_engine.py`    (severity weights, sub-scores,
  combined risk score, report construction), and
* `src/codegate/core/static_analyzer.py` (AST-based structural analyzer,
  cyclomatic complexity, text-pattern passes),

and proves or refutes the frozen specification claims about them.

Modelling conventions:

* Python `dict.get(k)` / `dict.get(k, d)` is modelled with `Option` fields
  and `Option.getD`.
* Python `float` arithmetic in the risk engine is modelled with exact
  rational arithmetic (`ℚ`).  All quantities involved are nonnegative and
  the only float operations used by the source are `+`, `*`, `/` with small
  operands, where Python `int(x)` truncates toward zero; on nonnegative
  values this is `⌊x⌋`, which is how it is modelled below.
* Python strings are Lean `String`s, but every text operation the source
  performs (`strip`, `lower`, `startswith`, substring containment,
  `replace`, `len`, indentation width) is implemented here character by
  character over `String.data` so that all definitions evaluate inside the
  Lean kernel.
* The Python AST (`ast` module) is modelled by the inductive types
  `PyExpr` / `PyStmt` below, covering the node kinds the analyzer
  dispatches on.
-/

namespace CodeGate

/-! ## Character-level models of the Python `str` operations used -/

/-- Whitespace characters removed by Python `str.strip()` (ASCII fragment). -/
def pyIsSpace (c : Char) : Bool :=
  c = ' ' || c = '\t' || c = '\n' || c = '\r' || c = '\x0b' || c = '\x0c'

/-- Drop leading whitespace from a character list. -/
def dropSpaceL : List Char → List Char
  | [] => []
  | c :: r => if pyIsSpace c then dropSpaceL r else c :: r

/-- Model of Python `str.lstrip()`. -/
def pyLStrip (s : String) : String := ⟨dropSpaceL s.data⟩

/-- Model of Python `str.strip()`: drop whitespace from both ends. -/
def pyStrip (s : String) : String :=
  ⟨(dropSpaceL (dropSpaceL s.data).reverse).reverse⟩

/-- Model of Python `len(s)` (number of characters). -/
def pyLen (s : String) : Nat := s.data.length

/-- Model of Python `s.startswith(p)`. -/
def pyStartsWith (s p : String) : Bool := p.data.isPrefixOf s.data

/-- Substring containment on character lists (`p in s` for Python strings). -/
def containsSubL : List Char → List Char → Bool
  | _, [] => true
  | [], _ :: _ => false
  | c :: r, pat => pat.isPrefixOf (c :: r) || containsSubL r pat

/-- Model of the Python substring test `p in s`. -/
def pyContains (s p : String) : Bool := containsSubL s.data p.data

/-- Model of Python `s.count(c)` for a single-character pattern. -/
def pyCountChar (s : String) (c : Char) : Nat := s.data.countP (· = c)

/-- Model of Python `s.replace(" ", "")` (single-space pattern, so it is
just removal of every space character). -/
def pyRemoveSpaces (s : String) : String := ⟨s.data.filter (· ≠ ' ')⟩

/-- ASCII lower-casing of one character (the fragment of Python
`str.lower()` the severity strings exercise). -/
def lowerChar (c : Char) : Char :=
  if 65 ≤ c.toNat ∧ c.toNat ≤ 90 then Char.ofNat (c.toNat + 32) else c

/-- Model of Python `str.lower()` (ASCII fragment). -/
def pyLower (s : String) : String := ⟨s.data.map lowerChar⟩

/-- Indentation width of a raw source line:
`len(line) - len(line.lstrip())` in the source. -/
def indentWidth (line : String) : Nat := pyLen line - pyLen (pyLStrip line)

/-- Model of Python `"\n".join`-style reconstruction: the analyzer's
`self.code` is the `"\n"`-joined form of `self.lines`
(inverse of `code.split('\n')`). -/
def joinLines : List String → String
  | [] => ""
  | [l] => l
  | l :: rest => l ++ "\n" ++ joinLines rest

/-! ## Risk engine data model (`risk_engine.py`) -/

/-- `SEVERITY_WEIGHTS` dict from `risk_engine.py` lines 5–10, as a partial
lookup (a Python dict maps missing keys to "absent", here `none`). -/
def SEVERITY_WEIGHTS (s : String) : Option Nat :=
  if s = "low" then some 1
  else if s = "medium" then some 3
  else if s = "high" then some 7
  else if s = "critical" then some 12
  else none

/-- One element of `gemini_findings["vulnerabilities"]`: an untrusted,
partially-shaped dict.  Each field models `v.get("…")`, so a missing key
is `none`. -/
structure ExtVuln where
  type? : Option String := none
  severity? : Option String := none
  line_number? : Option Int := none
  code_snippet? : Option String := none
  description? : Option String := none
  impact? : Option String := none
  remediation? : Option String := none
  cwe_id? : Option String := none
deriving Repr, DecidableEq

/-- The `gemini_findings` dict handed to `RiskEngine.__init__`.  Only the
keys the engine reads are modelled; each is optional exactly as
`dict.get` treats it.  `dependencies_analysis` is an opaque payload the
engine passes through unchanged; it is modelled as an uninterpreted
string. -/
structure GeminiFindings where
  vulnerabilities : Option (List ExtVuln) := none
  analysis_summary : Option String := none
  dependencies_analysis : Option String := none
deriving Repr, DecidableEq

/-- `StaticAnalysisIssue` dataclass from `static_analyzer.py` lines 8–19.
`metric_value` is a Python float used only for integer-valued metrics; it
is modelled as an optional rational. -/
structure StaticAnalysisIssue where
  type : String
  category : String
  severity : String
  line_number : Nat
  code_snippet : String
  description : String
  impact : String
  remediation : String
  metric_value : Option ℚ := none
deriving Repr, DecidableEq

/-- `RiskEngine._compute_security_score` (`risk_engine.py` lines 54–71).
Python `int(raw_score)` truncates toward zero; `raw_score` is a sum of
nonnegative terms, so it is `⌊raw_score⌋` here. -/
def compute_security_score (findings : GeminiFindings) (total_lines : Int) : Int :=
  match findings.vulnerabilities with
  | none => 0
  | some vulns =>
    if vulns.isEmpty then 0
    else
      let total_weighted_severity : Nat :=
        (vulns.map fun v => (SEVERITY_WEIGHTS (pyLower (v.severity?.getD "low"))).getD 1).sum
      let num_vulnerabilities : Nat := vulns.length
      let density_factor : ℚ :=
        if total_lines > 0 then ((num_vulnerabilities : ℚ) / (total_lines : ℚ)) * 100 else 0
      let raw_score : ℚ := (total_weighted_severity : ℚ) + density_factor
      min 100 ⌊raw_score⌋

/-- The inner `static_weights["logic"]` dict (`risk_engine.py` line 79). -/
def staticWeightsLogic (sev : String) : Option ℚ :=
  if sev = "critical" then some 8 else if sev = "high" then some 5
  else if sev = "medium" then some 3 else if sev = "low" then some 1 else none

/-- The inner `static_weights["performance"]` dict (line 80). -/
def staticWeightsPerformance (sev : String) : Option ℚ :=
  if sev = "critical" then some 6 else if sev = "high" then some 4
  else if sev = "medium" then some 2 else if sev = "low" then some 1 else none

/-- The inner `static_weights["relevance"]` dict (line 81). -/
def staticWeightsRelevance (sev : String) : Option ℚ :=
  if sev = "critical" then some 4 else if sev = "high" then some 2
  else if sev = "medium" then some 1 else if sev = "low" then some (1/2) else none

/-- The inner `static_weights["complexity"]` dict (line 82). -/
def staticWeightsComplexity (sev : String) : Option ℚ :=
  if sev = "critical" then some 5 else if sev = "high" then some 3
  else if sev = "medium" then some 2 else if sev = "low" then some 1 else none

/-- `static_weights.get(issue_type, static_weights['logic'])`
(`risk_engine.py` line 89): an unrecognized kind falls back to the logic
table. -/
def staticWeightsGet (issue_type : String) : String → Option ℚ :=
  if issue_type = "logic" then staticWeightsLogic
  else if issue_type = "performance" then staticWeightsPerformance
  else if issue_type = "relevance" then staticWeightsRelevance
  else if issue_type = "complexity" then staticWeightsComplexity
  else staticWeightsLogic

/-- The per-issue weight
`static_weights.get(issue_type, static_weights['logic']).get(severity, 1)`
(`risk_engine.py` line 89). -/
def staticIssueWeight (issue_type severity : String) : ℚ :=
  (staticWeightsGet issue_type severity).getD 1

/-- `RiskEngine._compute_static_analysis_score` (`risk_engine.py` lines
73–96).  As above, `int` on the nonnegative `raw_score` is `⌊·⌋`. -/
def compute_static_analysis_score (static_findings : List StaticAnalysisIssue)
    (total_lines : Int) : Int :=
  if static_findings.isEmpty then 0
  else
    let total_static_score : ℚ :=
      (static_findings.map fun f => staticIssueWeight f.type f.severity).sum
    let density_factor : ℚ :=
      if total_lines > 0 then ((static_findings.length : ℚ) / (total_lines : ℚ)) * 50 else 0
    let raw_score : ℚ := total_static_score + density_factor
    min 100 ⌊raw_score⌋

/-- `RiskEngine.compute_risk_score` (`risk_engine.py` lines 46–52):
`min(100, int(security_score * 0.8 + static_score * 0.2))`.  The literals
`0.8` and `0.2` are exact as rationals. -/
def compute_risk_score (findings : GeminiFindings)
    (static_findings : List StaticAnalysisIssue) (total_lines : Int) : Int :=
  let security_score := compute_security_score findings total_lines
  let static_score := compute_static_analysis_score static_findings total_lines
  min 100 ⌊(security_score : ℚ) * (0.8 : ℚ) + (static_score : ℚ) * (0.2 : ℚ)⌋

/-- `Finding` dataclass from `risk_engine.py` lines 12–25.  The typed
fields receive `dict.get` results for external findings, so a missing key
makes the field Python `None`; every such field is therefore an
`Option`. -/
structure Finding where
  vulnerability_type : Option String
  severity : Option String
  line_number : Option Int
  code_snippet : Option String
  description : Option String
  impact : Option String
  remediation : Option String
  tool : String := "gemini"
  cwe_id : Option String := none
  issue_type : String := "security"
  category : Option String := none
  metric_value : Option ℚ := none
deriving Repr, DecidableEq

/-- Result of `RiskEngine._generate_static_analysis_summary`
(`risk_engine.py` lines 156–184).  The empty case returns a dict without
the `by_type` / `by_severity` keys; absent keys are `none`. -/
structure StaticSummary where
  total_issues : Nat
  by_type : Option (List (String × Nat)) := none
  by_severity : Option (List (String × Nat)) := none
  summary : String
deriving Repr, DecidableEq

/-- `SecurityReport` dataclass from `risk_engine.py` lines 27–38.
`analysis_timestamp` (`datetime.now()`) is modelled as an abstract clock
value of type `Nat` supplied at call time. -/
structure SecurityReport where
  language : String
  analysis_timestamp : Nat
  file_path : Option String
  risk_score : Int
  summary : String
  vulnerabilities : List Finding
  dependencies_analysis : Option String
  total_lines : Int
  scan_duration : ℚ
  static_analysis_summary : Option StaticSummary := none
deriving Repr, DecidableEq

/-- Increment the count of key `k` in an insertion-ordered counting dict
(`d[k] = d.get(k, 0) + 1` on a Python dict, which keeps first-insertion
order). -/
def bumpCount (m : List (String × Nat)) (k : String) : List (String × Nat) :=
  match m with
  | [] => [(k, 1)]
  | (k', n) :: rest => if k' = k then (k', n + 1) :: rest else (k', n) :: bumpCount rest k

/-- Fold `bumpCount` over a key sequence. -/
def countsOf (keys : List String) : List (String × Nat) :=
  keys.foldl bumpCount []

/-- `RiskEngine._generate_static_analysis_summary` (`risk_engine.py`
lines 156–184). -/
def generate_static_analysis_summary
    (static_findings : List StaticAnalysisIssue) : StaticSummary :=
  if static_findings.isEmpty then
    { total_issues := 0, summary := "No static analysis issues found." }
  else
    let type_counts := countsOf (static_findings.map (·.type))
    let severity_counts := countsOf (static_findings.map (·.severity))
    let summary_parts := type_counts.map fun p => toString p.2 ++ " " ++ p.1
    { total_issues := static_findings.length
      by_type := some type_counts
      by_severity := some severity_counts
      summary := ", ".intercalate summary_parts ++ " issues" }

/-- The `Finding` built from one external vulnerability dict in
`RiskEngine.create_report` (`risk_engine.py` lines 105–117).  Note that
`severity` is `v.get("severity")` with no default: a missing severity
stays `None` here even though the score computation defaulted it to
`"low"`. -/
def findingOfExtVuln (v : ExtVuln) : Finding :=
  { vulnerability_type := v.type?
    severity := v.severity?
    line_number := v.line_number?
    code_snippet := v.code_snippet?
    description := v.description?
    impact := v.impact?
    remediation := v.remediation?
    cwe_id := v.cwe_id?
    tool := "gemini"
    issue_type := "security" }

/-- The `Finding` built from one static-analysis issue in
`RiskEngine.create_report` (`risk_engine.py` lines 120–133).
`static_issue.category or static_issue.type` falls back on the type when
the category string is falsy (empty). -/
def findingOfStaticIssue (i : StaticAnalysisIssue) : Finding :=
  { vulnerability_type := some (if i.category = "" then i.type else i.category)
    severity := some i.severity
    line_number := some (i.line_number : Int)
    code_snippet := some i.code_snippet
    description := some i.description
    impact := some i.impact
    remediation := some i.remediation
    tool := "static_analyzer"
    issue_type := i.type
    category := some i.category
    metric_value := i.metric_value }

/-- `RiskEngine.create_report` (`risk_engine.py` lines 98–154).  The
Python call reads the wall clock (`datetime.now()`); that clock reading is
the explicit `now` argument here. -/
def create_report (findings : GeminiFindings)
    (static_findings : List StaticAnalysisIssue) (total_lines : Int)
    (language : String) (file_path : Option String) (scan_duration : ℚ)
    (now : Nat) : SecurityReport :=
  let risk_score := compute_risk_score findings static_findings total_lines
  let findings_list :=
    (findings.vulnerabilities.getD []).map findingOfExtVuln
      ++ static_findings.map findingOfStaticIssue
  let static_summary := generate_static_analysis_summary static_findings
  let base_summary := findings.analysis_summary.getD "No security analysis summary provided."
  let combined_summary :=
    if static_summary.total_issues > 0 then
      base_summary ++ " Static analysis found " ++ toString static_summary.total_issues
        ++ " additional issues: " ++ static_summary.summary
    else base_summary
  { language := language
    analysis_timestamp := now
    file_path := file_path
    risk_score := risk_score
    summary := combined_summary
    vulnerabilities := findings_list
    dependencies_analysis := findings.dependencies_analysis
    total_lines := total_lines
    scan_duration := scan_duration
    static_analysis_summary := some static_summary }

/-! ## Python AST model (`ast` module nodes the analyzer dispatches on)

Expression nodes.  Names occurring inside expressions are always in
`Load` context in Python; `Store`-context names (assignment and loop
targets) are modelled as plain strings on the statement constructors, so
every `PyExpr.name` is a `Load`-context name.  Line numbers are carried
only on the node kinds whose checks read `node.lineno`
(`BoolOp`, `Compare`, `Call`). -/
inductive PyExpr where
  | constBool (b : Bool)
  | constNone
  | constInt (n : Int)
  | constStr (s : String)
  | name (id : String)
  | attribute (value : PyExpr) (attr : String)
  | boolOp (values : List PyExpr) (lineno : Nat)
  | compare (left : PyExpr) (comparators : List PyExpr) (lineno : Nat)
  | call (func : PyExpr) (args : List PyExpr) (lineno : Nat)
deriving Repr

mutual
/-- Statement nodes.  `functionDef` carries `lineno` and `end_lineno`
(read by `_check_function_complexity`); the other statements carry
`lineno`. -/
inductive PyStmt where
  | functionDef (name : String) (args : List String) (body : List PyStmt)
      (lineno end_lineno : Nat)
  | classDef (name : String) (body : List PyStmt) (lineno : Nat)
  | assign (targets : List String) (value : PyExpr) (lineno : Nat)
  | ret (value : Option PyExpr) (lineno : Nat)
  | exprStmt (value : PyExpr) (lineno : Nat)
  | whileS (test : PyExpr) (body : List PyStmt) (orelse : List PyStmt) (lineno : Nat)
  | forS (target : String) (iter : PyExpr) (body : List PyStmt)
      (orelse : List PyStmt) (lineno : Nat)
  | ifS (test : PyExpr) (body : List PyStmt) (orelse : List PyStmt) (lineno : Nat)
  | withS (items : List PyExpr) (body : List PyStmt) (lineno : Nat)
  | tryS (body : List PyStmt) (handlers : List PyExceptHandler)
      (orelse : List PyStmt) (finalbody : List PyStmt) (lineno : Nat)
  | breakS (lineno : Nat)
  | continueS (lineno : Nat)
  | passS (lineno : Nat)
deriving Repr

/-- `ast.ExceptHandler` node (a distinct node class in Python, visited by
`ast.walk` and by `ComplexityVisitor.visit_ExceptHandler`). -/
inductive PyExceptHandler where
  | mk (body : List PyStmt) (lineno : Nat)
deriving Repr
end

/-- A parsed module: `ast.parse` returns a `Module` whose `body` is a
statement list. -/
abbrev PyModule := List PyStmt

/-! ### Expression-level recursions -/

mutual
/-- `ComplexityVisitor` contribution of one expression subtree: each
`BoolOp` node adds `len(node.values) - 1`
(`static_analyzer.py` lines 591–594); all other expression kinds add 0
and are recursed into by `generic_visit`. -/
def exprCC : PyExpr → Nat
  | .constBool _ => 0
  | .constNone => 0
  | .constInt _ => 0
  | .constStr _ => 0
  | .name _ => 0
  | .attribute v _ => exprCC v
  | .boolOp values _ => (values.length - 1) + exprCCList values
  | .compare l comps _ => exprCC l + exprCCList comps
  | .call f args _ => exprCC f + exprCCList args

/-- `exprCC` summed over an expression list. -/
def exprCCList : List PyExpr → Nat
  | [] => 0
  | e :: rest => exprCC e + exprCCList rest
end

mutual
/-- All `Load`-context names in an expression subtree, in visit order
(what `visit_Name` adds to `used_names`, and what
`_check_unused_parameters` collects via `ast.walk`). -/
def exprLoadNames : PyExpr → List String
  | .constBool _ => []
  | .constNone => []
  | .constInt _ => []
  | .constStr _ => []
  | .name id => [id]
  | .attribute v _ => exprLoadNames v
  | .boolOp values _ => exprLoadNamesList values
  | .compare l comps _ => exprLoadNames l ++ exprLoadNamesList comps
  | .call f args _ => exprLoadNames f ++ exprLoadNamesList args

/-- `exprLoadNames` over an expression list. -/
def exprLoadNamesList : List PyExpr → List String
  | [] => []
  | e :: rest => exprLoadNames e ++ exprLoadNamesList rest
end

mutual
/-- All call-target names in an expression subtree, in visit order: for
`Call(Name(f), …)` the name `f`, for `Call(Attribute(_, m), …)` the
attribute `m` (`visit_Call`, `static_analyzer.py` lines 117–124). -/
def exprCallNames : PyExpr → List String
  | .constBool _ => []
  | .constNone => []
  | .constInt _ => []
  | .constStr _ => []
  | .name _ => []
  | .attribute v _ => exprCallNames v
  | .boolOp values _ => exprCallNamesList values
  | .compare l comps _ => exprCallNames l ++ exprCallNamesList comps
  | .call f args _ =>
    (match f with
     | .name id => [id]
     | .attribute _ attr => [attr]
     | _ => [])
      ++ exprCallNames f ++ exprCallNamesList args

/-- `exprCallNames` over an expression list. -/
def exprCallNamesList : List PyExpr → List String
  | [] => []
  | e :: rest => exprCallNames e ++ exprCallNamesList rest
end

/-! ### Statement-level recursions -/

mutual
/-- `ComplexityVisitor` contribution of one statement subtree
(`static_analyzer.py` lines 565–594): `If`, `While`, `For`,
`ExceptHandler` and `With` each add 1, `BoolOp` adds
`len(values) - 1`, and `generic_visit` recurses into every child —
including the bodies of nested `FunctionDef` / `ClassDef` nodes, since
`ComplexityVisitor` overrides no visitor for them. -/
def stmtCC : PyStmt → Nat
  | .functionDef _ _ body _ _ => stmtCCList body
  | .classDef _ body _ => stmtCCList body
  | .assign _ value _ => exprCC value
  | .ret value _ => (value.map exprCC).getD 0
  | .exprStmt value _ => exprCC value
  | .whileS test body orelse _ => 1 + exprCC test + stmtCCList body + stmtCCList orelse
  | .forS _ iter body orelse _ => 1 + exprCC iter + stmtCCList body + stmtCCList orelse
  | .ifS test body orelse _ => 1 + exprCC test + stmtCCList body + stmtCCList orelse
  | .withS items body _ => 1 + exprCCList items + stmtCCList body
  | .tryS body handlers orelse finalbody _ =>
      stmtCCList body + handlerCCList handlers + stmtCCList orelse + stmtCCList finalbody
  | .breakS _ => 0
  | .continueS _ => 0
  | .passS _ => 0

/-- `stmtCC` summed over a statement list. -/
def stmtCCList : List PyStmt → Nat
  | [] => 0
  | s :: rest => stmtCC s + stmtCCList rest

/-- `ComplexityVisitor.visit_ExceptHandler`: each handler adds 1. -/
def handlerCC : PyExceptHandler → Nat
  | .mk body _ => 1 + stmtCCList body

/-- `handlerCC` summed over the handler list. -/
def handlerCCList : List PyExceptHandler → Nat
  | [] => 0
  | h :: rest => handlerCC h + handlerCCList rest
end

/-- Cyclomatic complexity of a node as `ComplexityVisitor` computes it:
`self.complexity = 1` at construction plus the subtree contributions
(`static_analyzer.py` lines 189–191). -/
def cyclomaticComplexityOf (node : PyStmt) : Nat := 1 + stmtCC node

mutual
/-- Whether `ast.walk(node)` finds an `ast.Break` in the subtree of a
statement, nested definitions included
(`static_analyzer.py` line 342). -/
def stmtHasBreak : PyStmt → Bool
  | .functionDef _ _ body _ _ => stmtsHaveBreak body
  | .classDef _ body _ => stmtsHaveBreak body
  | .assign _ _ _ => false
  | .ret _ _ => false
  | .exprStmt _ _ => false
  | .whileS _ body orelse _ => stmtsHaveBreak body || stmtsHaveBreak orelse
  | .forS _ _ body orelse _ => stmtsHaveBreak body || stmtsHaveBreak orelse
  | .ifS _ body orelse _ => stmtsHaveBreak body || stmtsHaveBreak orelse
  | .withS _ body _ => stmtsHaveBreak body
  | .tryS body handlers orelse finalbody _ =>
      stmtsHaveBreak body || handlersHaveBreak handlers || stmtsHaveBreak orelse
        || stmtsHaveBreak finalbody
  | .breakS _ => true
  | .continueS _ => false
  | .passS _ => false

/-- `stmtHasBreak` over a statement list. -/
def stmtsHaveBreak : List PyStmt → Bool
  | [] => false
  | s :: rest => stmtHasBreak s || stmtsHaveBreak rest

/-- `stmtHasBreak` inside an exception handler. -/
def handlerHasBreak : PyExceptHandler → Bool
  | .mk body _ => stmtsHaveBreak body

/-- `handlerHasBreak` over the handler list. -/
def handlersHaveBreak : List PyExceptHandler → Bool
  | [] => false
  | h :: rest => handlerHasBreak h || handlersHaveBreak rest
end

mutual
/-- Whether a statement is, or contains anywhere in its subtree, an
`ast.For` or `ast.While` node (what
`any(isinstance(child, (ast.For, ast.While)) … for child in ast.walk(node))`
sees, `static_analyzer.py` lines 302–305). -/
def stmtIsOrHasLoop : PyStmt → Bool
  | .functionDef _ _ body _ _ => stmtsContainLoop body
  | .classDef _ body _ => stmtsContainLoop body
  | .assign _ _ _ => false
  | .ret _ _ => false
  | .exprStmt _ _ => false
  | .whileS _ _ _ _ => true
  | .forS _ _ _ _ _ => true
  | .ifS _ body orelse _ => stmtsContainLoop body || stmtsContainLoop orelse
  | .withS _ body _ => stmtsContainLoop body
  | .tryS body handlers orelse finalbody _ =>
      stmtsContainLoop body || handlersContainLoop handlers || stmtsContainLoop orelse
        || stmtsContainLoop finalbody
  | .breakS _ => false
  | .continueS _ => false
  | .passS _ => false

/-- `stmtIsOrHasLoop` over a statement list. -/
def stmtsContainLoop : List PyStmt → Bool
  | [] => false
  | s :: rest => stmtIsOrHasLoop s || stmtsContainLoop rest

/-- Loop occurrence inside an exception handler. -/
def handlerContainsLoop : PyExceptHandler → Bool
  | .mk body _ => stmtsContainLoop body

/-- `handlerContainsLoop` over the handler list. -/
def handlersContainLoop : List PyExceptHandler → Bool
  | [] => false
  | h :: rest => handlerContainsLoop h || handlersContainLoop rest
end

mutual
/-- Number of `ast.FunctionDef` nodes `ast.walk` finds in a statement
subtree, the node itself included (used for the class method count,
`static_analyzer.py` line 225). -/
def stmtCountFunctionDefs : PyStmt → Nat
  | .functionDef _ _ body _ _ => 1 + stmtsCountFunctionDefs body
  | .classDef _ body _ => stmtsCountFunctionDefs body
  | .assign _ _ _ => 0
  | .ret _ _ => 0
  | .exprStmt _ _ => 0
  | .whileS _ body orelse _ => stmtsCountFunctionDefs body + stmtsCountFunctionDefs orelse
  | .forS _ _ body orelse _ => stmtsCountFunctionDefs body + stmtsCountFunctionDefs orelse
  | .ifS _ body orelse _ => stmtsCountFunctionDefs body + stmtsCountFunctionDefs orelse
  | .withS _ body _ => stmtsCountFunctionDefs body
  | .tryS body handlers orelse finalbody _ =>
      stmtsCountFunctionDefs body + handlersCountFunctionDefs handlers
        + stmtsCountFunctionDefs orelse + stmtsCountFunctionDefs finalbody
  | .breakS _ => 0
  | .continueS _ => 0
  | .passS _ => 0

/-- `stmtCountFunctionDefs` over a statement list. -/
def stmtsCountFunctionDefs : List PyStmt → Nat
  | [] => 0
  | s :: rest => stmtCountFunctionDefs s + stmtsCountFunctionDefs rest

/-- Function definitions inside an exception handler. -/
def handlerCountFunctionDefs : PyExceptHandler → Nat
  | .mk body _ => stmtsCountFunctionDefs body

/-- `handlerCountFunctionDefs` over the handler list. -/
def handlersCountFunctionDefs : List PyExceptHandler → Nat
  | [] => 0
  | h :: rest => handlerCountFunctionDefs h + handlersCountFunctionDefs rest
end

mutual
/-- All `Load`-context names `ast.walk` finds in a statement subtree
(used by `_check_unused_parameters`, `static_analyzer.py` lines 247–250;
the walk descends into nested definitions). -/
def stmtLoadNames : PyStmt → List String
  | .functionDef _ _ body _ _ => stmtsLoadNames body
  | .classDef _ body _ => stmtsLoadNames body
  | .assign _ value _ => exprLoadNames value
  | .ret value _ => (value.map exprLoadNames).getD []
  | .exprStmt value _ => exprLoadNames value
  | .whileS test body orelse _ =>
      exprLoadNames test ++ stmtsLoadNames body ++ stmtsLoadNames orelse
  | .forS _ iter body orelse _ =>
      exprLoadNames iter ++ stmtsLoadNames body ++ stmtsLoadNames orelse
  | .ifS test body orelse _ =>
      exprLoadNames test ++ stmtsLoadNames body ++ stmtsLoadNames orelse
  | .withS items body _ => exprLoadNamesList items ++ stmtsLoadNames body
  | .tryS body handlers orelse finalbody _ =>
      stmtsLoadNames body ++ handlersLoadNames handlers ++ stmtsLoadNames orelse
        ++ stmtsLoadNames finalbody
  | .breakS _ => []
  | .continueS _ => []
  | .passS _ => []

/-- `stmtLoadNames` over a statement list. -/
def stmtsLoadNames : List PyStmt → List String
  | [] => []
  | s :: rest => stmtLoadNames s ++ stmtsLoadNames rest

/-- `Load`-context names inside an exception handler. -/
def handlerLoadNames : PyExceptHandler → List String
  | .mk body _ => stmtsLoadNames body

/-- `handlerLoadNames` over the handler list. -/
def handlersLoadNames : List PyExceptHandler → List String
  | [] => []
  | h :: rest => handlerLoadNames h ++ handlersLoadNames rest
end

/-! ### Name-usage bookkeeping collected during the traversal
(`StaticCodeAnalyzer.__init__`, `static_analyzer.py` lines 29–35) -/

/-- Python `set.add`: sets are modelled as duplicate-free lists; the claims
only ever test membership, so the list order is immaterial. -/
def addSet (s : List String) (x : String) : List String :=
  if s.contains x then s else s ++ [x]

/-- Python `d[k] = v` on an insertion-ordered dict: overwrite in place,
append new keys at the end. -/
def dictSet (m : List (String × Nat)) (k : String) (v : Nat) : List (String × Nat) :=
  match m with
  | [] => [(k, v)]
  | (k', v') :: rest => if k' = k then (k, v) :: rest else (k', v') :: dictSet rest k v

/-- `d[k].append(v)` on an insertion-ordered `defaultdict(list)`. -/
def dictPush (m : List (String × List Nat)) (k : String) (v : Nat) :
    List (String × List Nat) :=
  match m with
  | [] => [(k, [v])]
  | (k', vs) :: rest => if k' = k then (k, vs ++ [v]) :: rest else (k', vs) :: dictPush rest k v

/-- The mutable bookkeeping of `StaticCodeAnalyzer` that the
post-traversal passes read (`static_analyzer.py` lines 29–35).  The
fields `imports`, `current_function`, `current_class` and
`complexity_stack` are also present in the source but are never read by
any issue-producing code path, so they are omitted. -/
structure NameState where
  defined_names : List String := []
  used_names : List String := []
  function_definitions : List (String × Nat) := []
  class_definitions : List (String × Nat) := []
  variable_assignments : List (String × List Nat) := []
  function_calls : List String := []
deriving Repr, DecidableEq

mutual
/-- State updates performed while visiting one expression:
`visit_Name` adds `Load`-context names to `used_names`
(lines 111–115) and `visit_Call` adds the callee name or attribute to
`function_calls` (lines 117–124), before `generic_visit` recurses. -/
def collectExpr (st : NameState) : PyExpr → NameState
  | .constBool _ => st
  | .constNone => st
  | .constInt _ => st
  | .constStr _ => st
  | .name id => { st with used_names := addSet st.used_names id }
  | .attribute v _ => collectExpr st v
  | .boolOp values _ => collectExprList st values
  | .compare l comps _ => collectExprList (collectExpr st l) comps
  | .call f args _ =>
    let st :=
      match f with
      | .name id => { st with function_calls := addSet st.function_calls id }
      | .attribute _ attr => { st with function_calls := addSet st.function_calls attr }
      | _ => st
    collectExprList (collectExpr st f) args

/-- `collectExpr` folded over an expression list. -/
def collectExprList (st : NameState) : List PyExpr → NameState
  | [] => st
  | e :: rest => collectExprList (collectExpr st e) rest
end

mutual
/-- State updates performed while visiting one statement, in the visit
order of `StaticCodeAnalyzer`: the per-node bookkeeping of
`visit_FunctionDef` / `visit_ClassDef` / `visit_Assign` happens before
`generic_visit` recurses into the children. -/
def collectStmt (st : NameState) : PyStmt → NameState
  | .functionDef name _ body lineno _ =>
    let st := { st with
      function_definitions := dictSet st.function_definitions name lineno
      defined_names := addSet st.defined_names name }
    collectStmts st body
  | .classDef name body lineno =>
    let st := { st with
      class_definitions := dictSet st.class_definitions name lineno
      defined_names := addSet st.defined_names name }
    collectStmts st body
  | .assign targets value lineno =>
    let st := targets.foldl (fun st t =>
      { st with
        defined_names := addSet st.defined_names t
        variable_assignments := dictPush st.variable_assignments t lineno }) st
    collectExpr st value
  | .ret value _ => (value.map (collectExpr st)).getD st
  | .exprStmt value _ => collectExpr st value
  | .whileS test body orelse _ => collectStmts (collectStmts (collectExpr st test) body) orelse
  | .forS _ iter body orelse _ => collectStmts (collectStmts (collectExpr st iter) body) orelse
  | .ifS test body orelse _ => collectStmts (collectStmts (collectExpr st test) body) orelse
  | .withS items body _ => collectStmts (collectExprList st items) body
  | .tryS body handlers orelse finalbody _ =>
    collectStmts (collectStmts (collectHandlers (collectStmts st body) handlers) orelse) finalbody
  | .breakS _ => st
  | .continueS _ => st
  | .passS _ => st

/-- `collectStmt` folded over a statement list. -/
def collectStmts (st : NameState) : List PyStmt → NameState
  | [] => st
  | s :: rest => collectStmts (collectStmt st s) rest

/-- `generic_visit` into an exception handler's body. -/
def collectHandler (st : NameState) : PyExceptHandler → NameState
  | .mk body _ => collectStmts st body

/-- `collectHandler` folded over the handler list. -/
def collectHandlers (st : NameState) : List PyExceptHandler → NameState
  | [] => st
  | h :: rest => collectHandlers (collectHandler st h) rest
end

/-! ### The analyzer's per-node checks (`static_analyzer.py` lines 171–413) -/

/-- `StaticCodeAnalyzer._get_line_snippet` (lines 558–562). -/
def get_line_snippet (lines : List String) (line_no : Nat) : String :=
  if 1 ≤ line_no ∧ line_no ≤ lines.length then pyStrip (lines.getD (line_no - 1) "")
  else ""

/-- The non-blank, non-comment line count `loc` of
`_check_function_complexity` (lines 173–183): strip each raw line of the
slice `lines[start_line : min(end_line, len(lines))]` and keep the
non-empty ones not starting with `#`. -/
def funcLoc (lines : List String) (lineno end_lineno : Nat) : Nat :=
  let start_line := lineno - 1
  ((((lines.take (min end_lineno lines.length)).drop start_line).map pyStrip).filter
      fun l => l ≠ "" && !(pyStartsWith l "#")).length

/-- The `loc > 50` branch of `_check_function_complexity`
(lines 197–208). -/
def long_function_check (lines : List String) (name : String)
    (lineno end_lineno : Nat) : List StaticAnalysisIssue :=
  let loc := funcLoc lines lineno end_lineno
  if loc > 50 then
    [{ type := "complexity", category := "long_function"
       severity := if loc > 100 then "medium" else "low"
       line_number := lineno
       code_snippet := "def " ++ name ++ "(...):"
       description := "Function '" ++ name ++ "' is very long (" ++ toString loc ++ " lines of code)"
       impact := "Difficult to understand, maintain, and test"
       remediation := "Consider breaking this function into smaller, more focused functions"
       metric_value := some (loc : ℚ) }]
  else []

/-- The `cyclomatic_complexity > 10` branch of
`_check_function_complexity` (lines 210–221). -/
def high_cc_check (name : String) (body : List PyStmt)
    (lineno end_lineno : Nat) : List StaticAnalysisIssue :=
  let cyclomatic_complexity := cyclomaticComplexityOf (.functionDef name [] body lineno end_lineno)
  if cyclomatic_complexity > 10 then
    [{ type := "complexity", category := "high_cyclomatic_complexity"
       severity := if cyclomatic_complexity > 20 then "medium" else "low"
       line_number := lineno
       code_snippet := "def " ++ name ++ "(...):"
       description := "Function '" ++ name ++ "' has high cyclomatic complexity ("
         ++ toString cyclomatic_complexity ++ ")"
       impact := "Difficult to test and understand, prone to bugs"
       remediation := "Simplify control flow, extract complex logic into separate functions"
       metric_value := some (cyclomatic_complexity : ℚ) }]
  else []

/-- `StaticCodeAnalyzer._check_function_complexity` (lines 171–221): the
long-function check over the raw text slice, then the cyclomatic
complexity check.  The push/pop on `self.complexity_stack`
(lines 186, 194) brackets the fresh `ComplexityVisitor` and the pushed
counter is never read, so it has no observable effect. -/
def check_function_complexity (lines : List String) (name : String)
    (body : List PyStmt) (lineno end_lineno : Nat) : List StaticAnalysisIssue :=
  long_function_check lines name lineno end_lineno ++ high_cc_check name body lineno end_lineno

/-- `StaticCodeAnalyzer._check_unused_parameters` (lines 240–264).  The
source iterates the set difference `param_names - used_in_function`,
whose order CPython leaves unspecified; the model iterates the
parameters in declaration order, which fixes one of the admissible
orders. -/
def check_unused_parameters (name : String) (args : List String)
    (body : List PyStmt) (lineno : Nat) : List StaticAnalysisIssue :=
  let used_in_function := stmtsLoadNames body
  ((args.filter fun p => !(used_in_function.contains p)).filter
      fun p => !(pyStartsWith p "_")).map fun param =>
    { type := "relevance", category := "unused_parameter", severity := "low"
      line_number := lineno
      code_snippet := "def " ++ name ++ "(" ++ param ++ ", ...):"
      description := "Parameter '" ++ param ++ "' is never used in function '" ++ name ++ "'"
      impact := "Code clutter, potential confusion"
      remediation := "Remove unused parameter '" ++ param
        ++ "' or prefix with underscore if intentionally unused" }

/-- `StaticCodeAnalyzer._check_class_complexity` (lines 223–238). -/
def check_class_complexity (name : String) (body : List PyStmt)
    (lineno : Nat) : List StaticAnalysisIssue :=
  let method_count := stmtsCountFunctionDefs body
  if method_count > 20 then
    [{ type := "complexity", category := "large_class", severity := "medium"
       line_number := lineno
       code_snippet := "class " ++ name ++ ":"
       description := "Class '" ++ name ++ "' has too many methods (" ++ toString method_count ++ ")"
       impact := "Violates Single Responsibility Principle, hard to maintain"
       remediation := "Consider splitting into multiple classes with focused responsibilities"
       metric_value := some (method_count : ℚ) }]
  else []

/-- `StaticCodeAnalyzer._check_assignment_patterns` (lines 266–283): one
issue per `Name` target when the assigned value is a comparison and the
raw line's text heuristics fire.  In this model every target is a name. -/
def check_assignment_patterns (lines : List String) (targets : List String)
    (value : PyExpr) (lineno : Nat) : List StaticAnalysisIssue :=
  targets.foldr (fun _ acc =>
    (match value with
     | .compare _ _ _ =>
       let line_text := if lineno ≤ lines.length then lines.getD (lineno - 1) "" else ""
       if pyContains line_text "==" && pyCountChar line_text '=' = 3 then
         [{ type := "logic", category := "assignment_confusion", severity := "medium"
            line_number := lineno
            code_snippet := pyStrip line_text
            description := "Assignment of comparison result - verify this is intentional"
            impact := "May indicate confusion between assignment (=) and equality (==)"
            remediation := "Double-check if this should be a comparison in an if statement" }]
       else []
     | _ => []) ++ acc) []

/-- `StaticCodeAnalyzer._flag_sort_usage` (lines 544–556). -/
def flag_sort_usage (lines : List String) (lineno : Nat) : StaticAnalysisIssue :=
  { type := "performance", category := "sort_analysis", severity := "low"
    line_number := lineno
    code_snippet := get_line_snippet lines lineno
    description := "Sort operation detected - verify if full sort is needed"
    impact := "May be inefficient if only partial ordering is needed"
    remediation := "Consider heapq.nlargest/nsmallest for partial sorting, or bisect for maintaining sorted order" }

/-- `StaticCodeAnalyzer._check_call_performance` (lines 285–297): the
`append` branch is a `pass`; only `sort` / `sorted` attribute callees
produce an issue. -/
def check_call_performance (lines : List String) (func : PyExpr)
    (lineno : Nat) : List StaticAnalysisIssue :=
  match func with
  | .attribute _ attr =>
    if attr = "sort" || attr = "sorted" then [flag_sort_usage lines lineno] else []
  | _ => []

/-- The nested-loop branch of `_check_loop_performance`
(lines 301–317): `ast.walk(node)` finds another `For`/`While` among the
proper descendants, which can only sit inside `body` or `orelse`. -/
def nested_loops_check (lines : List String) (body orelse : List PyStmt)
    (lineno : Nat) : List StaticAnalysisIssue :=
  if stmtsContainLoop body || stmtsContainLoop orelse then
    [{ type := "performance", category := "nested_loops", severity := "medium"
       line_number := lineno
       code_snippet := get_line_snippet lines lineno
       description := "Nested loops detected - potential O(nÂ²) or higher complexity"
       impact := "May cause performance issues with large datasets"
       remediation := "Consider algorithm optimization, caching, or data structure changes" }]
  else []

/-- The list-comprehension branch of `_check_loop_performance`
(lines 319–336): a single-statement body that is an `append` method
call. -/
def list_comprehension_check (lines : List String) (body : List PyStmt)
    (lineno : Nat) : List StaticAnalysisIssue :=
  match body with
  | [.exprStmt (.call (.attribute _ attr) _ _) _] =>
    if attr = "append" then
      [{ type := "performance", category := "list_comprehension_opportunity"
         severity := "low"
         line_number := lineno
         code_snippet := get_line_snippet lines lineno
         description := "Loop could be replaced with list comprehension"
         impact := "Slightly less efficient and less Pythonic"
         remediation := "Consider using list comprehension: [expr for item in iterable]" }]
    else []
  | _ => []

/-- `StaticCodeAnalyzer._check_loop_performance` (lines 299–336), which
`visit_For` — and only `visit_For` — calls: the nested-loop detection
over `ast.walk`, then the single-statement `append`-body
list-comprehension pattern. -/
def check_loop_performance (lines : List String) (body orelse : List PyStmt)
    (lineno : Nat) : List StaticAnalysisIssue :=
  nested_loops_check lines body orelse lineno ++ list_comprehension_check lines body lineno

/-- `isinstance(node.test, ast.Constant) and node.test.value is True`
(line 341): the test is the constant `True` — the Python `is True`
comparison rules out every other constant value. -/
def isConstTrue : PyExpr → Bool
  | .constBool b => b
  | _ => false

/-- `StaticCodeAnalyzer._check_while_loop_logic` (lines 338–353): a
`while`-loop whose test is the constant `True` and whose subtree
(`ast.walk(node)`, nested statements included) contains no `Break`. -/
def check_while_loop_logic (test : PyExpr) (body orelse : List PyStmt)
    (lineno : Nat) : List StaticAnalysisIssue :=
  if isConstTrue test then
    if stmtsHaveBreak body || stmtsHaveBreak orelse then []
    else
      [{ type := "logic", category := "infinite_loop", severity := "high"
         line_number := lineno
         code_snippet := "while True:"
         description := "Infinite loop without break statement"
         impact := "Will cause program to hang indefinitely"
         remediation := "Add break condition or use a different loop structure" }]
  else []

/-- Python truthiness of an `ast.Constant` value (`if node.test.value:`,
line 359). -/
def constExprTruthy : PyExpr → Bool
  | .constBool b => b
  | .constNone => false
  | .constInt n => n ≠ 0
  | .constStr s => s ≠ ""
  | _ => false

/-- Whether an expression is an `ast.Constant` node. -/
def isConstExpr : PyExpr → Bool
  | .constBool _ => true
  | .constNone => true
  | .constInt _ => true
  | .constStr _ => true
  | _ => false

/-- `StaticCodeAnalyzer._check_conditional_logic` (lines 355–380). -/
def check_conditional_logic (lines : List String) (test : PyExpr)
    (lineno : Nat) : List StaticAnalysisIssue :=
  if isConstExpr test then
    if constExprTruthy test then
      [{ type := "logic", category := "always_true_condition", severity := "medium"
         line_number := lineno
         code_snippet := get_line_snippet lines lineno
         description := "Condition is always True"
         impact := "Dead code - else branch will never execute"
         remediation := "Remove the condition or fix the logic" }]
    else
      [{ type := "logic", category := "always_false_condition", severity := "medium"
         line_number := lineno
         code_snippet := get_line_snippet lines lineno
         description := "Condition is always False"
         impact := "Dead code - if branch will never execute"
         remediation := "Remove the condition or fix the logic" }]
  else []

/-- `StaticCodeAnalyzer._check_comparison_logic` (lines 382–395):
`len(node.ops) > 2`, where `len(node.ops) = len(node.comparators)`. -/
def check_comparison_logic (lines : List String) (comparators : List PyExpr)
    (lineno : Nat) : List StaticAnalysisIssue :=
  if comparators.length > 2 then
    [{ type := "logic", category := "complex_chained_comparison", severity := "low"
       line_number := lineno
       code_snippet := get_line_snippet lines lineno
       description := "Complex chained comparison may be hard to understand"
       impact := "Reduced code readability"
       remediation := "Consider breaking into multiple simpler comparisons" }]
  else []

/-- `StaticCodeAnalyzer._check_boolean_logic` (lines 397–413). -/
def check_boolean_logic (lines : List String) (lineno : Nat) : List StaticAnalysisIssue :=
  let line_text := get_line_snippet lines lineno
  if pyContains line_text "&"
      && !(pyContains line_text "<<" || pyContains line_text ">>"
            || pyContains line_text "|" || pyContains line_text "^") then
    [{ type := "logic", category := "bitwise_vs_logical", severity := "medium"
       line_number := lineno
       code_snippet := line_text
       description := "Potential use of bitwise operator (&) instead of logical operator (and)"
       impact := "May cause unexpected behavior in boolean contexts"
       remediation := "Use 'and' for logical operations, '&' only for bitwise operations" }]
  else []

/-! ### Post-traversal whole-file passes (`static_analyzer.py` lines 415–542) -/

/-- The unused-function loop of
`StaticCodeAnalyzer._check_unused_definitions` (lines 418–433). -/
def unused_function_issues (st : NameState) : List StaticAnalysisIssue :=
  st.function_definitions.foldr (fun p acc =>
    (if !(st.function_calls.contains p.1) && !(pyStartsWith p.1 "_")
        && !(p.1 = "main" || p.1 = "__init__" || p.1 = "__str__" || p.1 = "__repr__") then
      [{ type := "relevance", category := "unused_function", severity := "low"
         line_number := p.2
         code_snippet := "def " ++ p.1 ++ "(...):"
         description := "Function '" ++ p.1 ++ "' is defined but never called"
         impact := "Code clutter, potential confusion"
         remediation := "Remove unused function '" ++ p.1 ++ "' or add calls to it" }]
     else []) ++ acc) []

/-- The unused-class loop of `_check_unused_definitions` (lines 436–447). -/
def unused_class_issues (st : NameState) : List StaticAnalysisIssue :=
  st.class_definitions.foldr (fun p acc =>
    (if !(st.used_names.contains p.1) && !(pyStartsWith p.1 "_") then
      [{ type := "relevance", category := "unused_class", severity := "medium"
         line_number := p.2
         code_snippet := "class " ++ p.1 ++ ":"
         description := "Class '" ++ p.1 ++ "' is defined but never used"
         impact := "Code clutter, maintenance overhead"
         remediation := "Remove unused class '" ++ p.1 ++ "' or add usage" }]
     else []) ++ acc) []

/-- The unused-variable loop of `_check_unused_definitions`
(lines 450–463); reports at the first assignment line. -/
def unused_variable_issues (st : NameState) : List StaticAnalysisIssue :=
  st.variable_assignments.foldr (fun p acc =>
    (if !(st.used_names.contains p.1) && !(pyStartsWith p.1 "_")
        && !(p.1 = "self" || p.1 = "cls") then
      [{ type := "relevance", category := "unused_variable", severity := "low"
         line_number := p.2.getD 0 0
         code_snippet := p.1 ++ " = ..."
         description := "Variable '" ++ p.1 ++ "' is assigned but never used"
         impact := "Code clutter, potential waste of computation"
         remediation := "Remove unused variable '" ++ p.1 ++ "' or add usage" }]
     else []) ++ acc) []

/-- `StaticCodeAnalyzer._check_unused_definitions` (lines 415–463). -/
def check_unused_definitions (st : NameState) : List StaticAnalysisIssue :=
  unused_function_issues st ++ unused_class_issues st ++ unused_variable_issues st

/-- The per-line membership-test loop of `_check_performance_patterns`
(lines 470–482); `i1` is the 1-based number of the head line. -/
def membership_test_issues : List String → Nat → List StaticAnalysisIssue
  | [], _ => []
  | l :: rest, i1 =>
    (if pyContains l " in [" || pyContains (pyRemoveSpaces l) "in(" then
      [{ type := "performance", category := "inefficient_membership_test"
         severity := "medium"
         line_number := i1
         code_snippet := pyStrip l
         description := "Using list for membership testing instead of set"
         impact := "O(n) complexity instead of O(1) for large collections"
         remediation := "Use set for membership testing: 'item in {set_items}' or 'item in set(items)'" }]
     else []) ++ membership_test_issues rest (i1 + 1)

/-- The inner `while` of `_check_repeated_computation` (lines 493–507):
scan forward while the line is indented or blank; report the first
`len(` line met and stop. -/
def repeated_computation_scan : List String → Nat → List StaticAnalysisIssue
  | [], _ => []
  | l :: rest, j1 =>
    if pyStartsWith l "    " || pyStrip l = "" then
      if pyContains l "len(" then
        [{ type := "performance", category := "repeated_computation", severity := "low"
           line_number := j1
           code_snippet := pyStrip l
           description := "Potential repeated computation of len() in loop"
           impact := "Unnecessary recomputation on each iteration"
           remediation := "Store len() result in variable before loop" }]
      else repeated_computation_scan rest (j1 + 1)
    else []

/-- `StaticCodeAnalyzer._check_repeated_computation` (lines 487–507):
for each raw line containing `"for "` and `":"`, run the forward scan
from the following line. -/
def repeated_computation_issues : List String → Nat → List StaticAnalysisIssue
  | [], _ => []
  | l :: rest, i1 =>
    (if pyContains l "for " && pyContains l ":" then
      repeated_computation_scan rest (i1 + 1)
     else []) ++ repeated_computation_issues rest (i1 + 1)

/-- `StaticCodeAnalyzer._check_performance_patterns` (lines 465–485). -/
def check_performance_patterns (lines : List String) : List StaticAnalysisIssue :=
  let code := joinLines lines
  (if pyContains code "in [" || pyContains (pyRemoveSpaces code) "in(" then
    membership_test_issues lines 1
   else [])
  ++ repeated_computation_issues lines 1

/-- The inner `while` of the unreachable-code check
(`_check_logic_patterns` lines 523–542): find the first non-blank,
non-comment line; report it when its indentation equals the trigger
line's, then stop either way. -/
def unreachable_scan (ind : Nat) : List String → Nat → List StaticAnalysisIssue
  | [], _ => []
  | l :: rest, j1 =>
    let next_line := pyStrip l
    if next_line ≠ "" && !(pyStartsWith next_line "#") then
      if indentWidth l = ind then
        [{ type := "logic", category := "unreachable_code", severity := "medium"
           line_number := j1
           code_snippet := next_line
           description := "Code appears to be unreachable"
           impact := "Dead code that will never execute"
           remediation := "Remove unreachable code or fix control flow" }]
      else []
    else unreachable_scan ind rest (j1 + 1)

/-- `StaticCodeAnalyzer._check_logic_patterns` (lines 509–542).  The
assignment-in-condition branch (lines 515–519) is a `pass` and emits
nothing; only the unreachable-code scan produces issues.  The keyword
test is a plain substring test on the stripped line. -/
def check_logic_patterns : List String → Nat → List StaticAnalysisIssue
  | [], _ => []
  | l :: rest, i1 =>
    let line_stripped := pyStrip l
    (if pyContains line_stripped "return " || pyContains line_stripped "break"
        || pyContains line_stripped "continue" then
      unreachable_scan (indentWidth l) rest (i1 + 1)
     else []) ++ check_logic_patterns rest (i1 + 1)

/-! ### The traversal (`ast.NodeVisitor` dispatch) and `analyze` -/

mutual
/-- Issues emitted while visiting one expression, in visit order:
`visit_Call`, `visit_Compare` and `visit_BoolOp` run their check and then
`generic_visit` recurses into the children
(`static_analyzer.py` lines 117–169). -/
def visitExprIssues (lines : List String) : PyExpr → List StaticAnalysisIssue
  | .constBool _ => []
  | .constNone => []
  | .constInt _ => []
  | .constStr _ => []
  | .name _ => []
  | .attribute v _ => visitExprIssues lines v
  | .boolOp values lineno => check_boolean_logic lines lineno ++ visitExprIssuesList lines values
  | .compare l comps lineno =>
      check_comparison_logic lines comps lineno ++ visitExprIssues lines l
        ++ visitExprIssuesList lines comps
  | .call f args lineno =>
      check_call_performance lines f lineno ++ visitExprIssues lines f
        ++ visitExprIssuesList lines args

/-- `visitExprIssues` over an expression list. -/
def visitExprIssuesList (lines : List String) : List PyExpr → List StaticAnalysisIssue
  | [] => []
  | e :: rest => visitExprIssues lines e ++ visitExprIssuesList lines rest
end

mutual
/-- Issues emitted while visiting one statement, in the visit order of
`StaticCodeAnalyzer`: each overridden `visit_…` runs its checks and then
`generic_visit` recurses into the children in field order
(`static_analyzer.py` lines 65–169). -/
def visitStmtIssues (lines : List String) : PyStmt → List StaticAnalysisIssue
  | .functionDef name args body lineno end_lineno =>
      check_function_complexity lines name body lineno end_lineno
        ++ check_unused_parameters name args body lineno
        ++ visitStmtIssuesList lines body
  | .classDef name body lineno =>
      check_class_complexity name body lineno ++ visitStmtIssuesList lines body
  | .assign targets value lineno =>
      check_assignment_patterns lines targets value lineno ++ visitExprIssues lines value
  | .ret value _ => ((value.map (visitExprIssues lines)).getD [])
  | .exprStmt value _ => visitExprIssues lines value
  | .whileS test body orelse lineno =>
      check_while_loop_logic test body orelse lineno
        ++ visitExprIssues lines test ++ visitStmtIssuesList lines body
        ++ visitStmtIssuesList lines orelse
  | .forS _ iter body orelse lineno =>
      check_loop_performance lines body orelse lineno
        ++ visitExprIssues lines iter ++ visitStmtIssuesList lines body
        ++ visitStmtIssuesList lines orelse
  | .ifS test body orelse lineno =>
      check_conditional_logic lines test lineno
        ++ visitExprIssues lines test ++ visitStmtIssuesList lines body
        ++ visitStmtIssuesList lines orelse
  | .withS items body _ =>
      visitExprIssuesList lines items ++ visitStmtIssuesList lines body
  | .tryS body handlers orelse finalbody _ =>
      visitStmtIssuesList lines body ++ visitHandlerIssuesList lines handlers
        ++ visitStmtIssuesList lines orelse ++ visitStmtIssuesList lines finalbody
  | .breakS _ => []
  | .continueS _ => []
  | .passS _ => []

/-- `visitStmtIssues` over a statement list. -/
def visitStmtIssuesList (lines : List String) : List PyStmt → List StaticAnalysisIssue
  | [] => []
  | s :: rest => visitStmtIssues lines s ++ visitStmtIssuesList lines rest

/-- `generic_visit` into an exception handler (no visitor override). -/
def visitHandlerIssues (lines : List String) : PyExceptHandler → List StaticAnalysisIssue
  | .mk body _ => visitStmtIssuesList lines body

/-- `visitHandlerIssues` over the handler list. -/
def visitHandlerIssuesList (lines : List String) : List PyExceptHandler → List StaticAnalysisIssue
  | [] => []
  | h :: rest => visitHandlerIssues lines h ++ visitHandlerIssuesList lines rest
end

/-- The outcome of `ast.parse`.  `lineno?` models
`getattr(e, 'lineno', 1)`: `none` stands for the attribute being absent,
in which case the source defaults the report line to 1. -/
structure SyntaxErrorInfo where
  lineno? : Option Nat := none
  msg : String := ""
deriving Repr, DecidableEq

/-- The single critical issue built in the `except SyntaxError` branch of
`StaticCodeAnalyzer.analyze` (lines 52–63).  The snippet lookup models
`self.lines[ln - 1] if self.lines else ""`; an error line beyond the
last line is modelled as the empty snippet (CPython's parser reports
error lines within the source, so the Python indexing is in range). -/
def syntax_error_issue (e : SyntaxErrorInfo) (lines : List String) : StaticAnalysisIssue :=
  let ln := e.lineno?.getD 1
  { type := "logic", category := "syntax_error", severity := "critical"
    line_number := ln
    code_snippet := if lines.isEmpty then "" else lines.getD (ln - 1) ""
    description := "Syntax error: " ++ e.msg
    impact := "Code will not execute"
    remediation := "Fix the syntax error" }

/-- `StaticCodeAnalyzer.analyze` (lines 40–63).  Parsing the raw text is
done by the Python runtime (`ast.parse`); its outcome — a module body or
a `SyntaxError` — is the explicit `parsed` input here, alongside
`self.lines = code.split('\n')`.  On success the tree is visited and the
three post-traversal passes run; on failure exactly the one synthetic
issue is returned. -/
def analyze (parsed : Except SyntaxErrorInfo PyModule)
    (lines : List String) : List StaticAnalysisIssue :=
  match parsed with
  | .error e => [syntax_error_issue e lines]
  | .ok tree =>
    visitStmtIssuesList lines tree
      ++ check_unused_definitions (collectStmts {} tree)
      ++ check_performance_patterns lines
      ++ check_logic_patterns lines 1

/-! ### Derived quantities the specification claims speak about -/

/-- Number of issues of a given category in a result list. -/
def catCount (c : String) (l : List StaticAnalysisIssue) : Nat :=
  l.countP fun i => i.category == c

mutual
/-- Number of `while`-loops in a statement subtree whose test is the
constant `True` and whose own subtree contains no `break` — the loops
the infinite-loop rule fires on. -/
def stmtInfLoops : PyStmt → Nat
  | .functionDef _ _ body _ _ => stmtsInfLoops body
  | .classDef _ body _ => stmtsInfLoops body
  | .assign _ _ _ => 0
  | .ret _ _ => 0
  | .exprStmt _ _ => 0
  | .whileS test body orelse _ =>
      (if isConstTrue test && !(stmtsHaveBreak body || stmtsHaveBreak orelse) then 1 else 0)
        + stmtsInfLoops body + stmtsInfLoops orelse
  | .forS _ _ body orelse _ => stmtsInfLoops body + stmtsInfLoops orelse
  | .ifS _ body orelse _ => stmtsInfLoops body + stmtsInfLoops orelse
  | .withS _ body _ => stmtsInfLoops body
  | .tryS body handlers orelse finalbody _ =>
      stmtsInfLoops body + handlersInfLoops handlers + stmtsInfLoops orelse
        + stmtsInfLoops finalbody
  | .breakS _ => 0
  | .continueS _ => 0
  | .passS _ => 0

/-- `stmtInfLoops` over a statement list. -/
def stmtsInfLoops : List PyStmt → Nat
  | [] => 0
  | s :: rest => stmtInfLoops s + stmtsInfLoops rest

/-- Qualifying infinite loops inside an exception handler. -/
def handlerInfLoops : PyExceptHandler → Nat
  | .mk body _ => stmtsInfLoops body

/-- `handlerInfLoops` over the handler list. -/
def handlersInfLoops : List PyExceptHandler → Nat
  | [] => 0
  | h :: rest => handlerInfLoops h + handlersInfLoops rest
end

mutual
/-- Number of `for`-loops in a statement subtree whose own subtree
contains another loop — the loops the nested-loop rule fires on
(`while`-loops are never checked). -/
def stmtForNested : PyStmt → Nat
  | .functionDef _ _ body _ _ => stmtsForNested body
  | .classDef _ body _ => stmtsForNested body
  | .assign _ _ _ => 0
  | .ret _ _ => 0
  | .exprStmt _ _ => 0
  | .whileS _ body orelse _ => stmtsForNested body + stmtsForNested orelse
  | .forS _ _ body orelse _ =>
      (if stmtsContainLoop body || stmtsContainLoop orelse then 1 else 0)
        + stmtsForNested body + stmtsForNested orelse
  | .ifS _ body orelse _ => stmtsForNested body + stmtsForNested orelse
  | .withS _ body _ => stmtsForNested body
  | .tryS body handlers orelse finalbody _ =>
      stmtsForNested body + handlersForNested handlers + stmtsForNested orelse
        + stmtsForNested finalbody
  | .breakS _ => 0
  | .continueS _ => 0
  | .passS _ => 0

/-- `stmtForNested` over a statement list. -/
def stmtsForNested : List PyStmt → Nat
  | [] => 0
  | s :: rest => stmtForNested s + stmtsForNested rest

/-- Qualifying nested `for`-loops inside an exception handler. -/
def handlerForNested : PyExceptHandler → Nat
  | .mk body _ => stmtsForNested body

/-- `handlerForNested` over the handler list. -/
def handlersForNested : List PyExceptHandler → Nat
  | [] => 0
  | h :: rest => handlerForNested h + handlersForNested rest
end

mutual
/-- Number of function definitions in a statement subtree whose
cyclomatic complexity (as `ComplexityVisitor` computes it) exceeds 10. -/
def stmtHighCCFns : PyStmt → Nat
  | .functionDef name args body ln eln =>
      (if cyclomaticComplexityOf (.functionDef name args body ln eln) > 10 then 1 else 0)
        + stmtsHighCCFns body
  | .classDef _ body _ => stmtsHighCCFns body
  | .assign _ _ _ => 0
  | .ret _ _ => 0
  | .exprStmt _ _ => 0
  | .whileS _ body orelse _ => stmtsHighCCFns body + stmtsHighCCFns orelse
  | .forS _ _ body orelse _ => stmtsHighCCFns body + stmtsHighCCFns orelse
  | .ifS _ body orelse _ => stmtsHighCCFns body + stmtsHighCCFns orelse
  | .withS _ body _ => stmtsHighCCFns body
  | .tryS body handlers orelse finalbody _ =>
      stmtsHighCCFns body + handlersHighCCFns handlers + stmtsHighCCFns orelse
        + stmtsHighCCFns finalbody
  | .breakS _ => 0
  | .continueS _ => 0
  | .passS _ => 0

/-- `stmtHighCCFns` over a statement list. -/
def stmtsHighCCFns : List PyStmt → Nat
  | [] => 0
  | s :: rest => stmtHighCCFns s + stmtsHighCCFns rest

/-- High-complexity functions inside an exception handler. -/
def handlerHighCCFns : PyExceptHandler → Nat
  | .mk body _ => stmtsHighCCFns body

/-- `handlerHighCCFns` over the handler list. -/
def handlersHighCCFns : List PyExceptHandler → Nat
  | [] => 0
  | h :: rest => handlerHighCCFns h + handlersHighCCFns rest
end

mutual
/-- Modelled from the spec: the per-function-isolated complexity count
the specification describes ("a stack of complexity counters … enabling
correct per-function isolation even for nested function definitions"):
identical to `stmtCC` except that it does **not** descend into nested
`functionDef` subtrees, so an enclosing function's score excludes every
contribution made inside a nested function definition. -/
def stmtCCIsolated : PyStmt → Nat
  | .functionDef _ _ _ _ _ => 0
  | .classDef _ body _ => stmtsCCIsolated body
  | .assign _ value _ => exprCC value
  | .ret value _ => (value.map exprCC).getD 0
  | .exprStmt value _ => exprCC value
  | .whileS test body orelse _ =>
      1 + exprCC test + stmtsCCIsolated body + stmtsCCIsolated orelse
  | .forS _ iter body orelse _ =>
      1 + exprCC iter + stmtsCCIsolated body + stmtsCCIsolated orelse
  | .ifS test body orelse _ =>
      1 + exprCC test + stmtsCCIsolated body + stmtsCCIsolated orelse
  | .withS items body _ => 1 + exprCCList items + stmtsCCIsolated body
  | .tryS body handlers orelse finalbody _ =>
      stmtsCCIsolated body + handlersCCIsolated handlers + stmtsCCIsolated orelse
        + stmtsCCIsolated finalbody
  | .breakS _ => 0
  | .continueS _ => 0
  | .passS _ => 0

/-- `stmtCCIsolated` over a statement list. -/
def stmtsCCIsolated : List PyStmt → Nat
  | [] => 0
  | s :: rest => stmtCCIsolated s + stmtsCCIsolated rest

/-- Isolated complexity inside an exception handler. -/
def handlerCCIsolated : PyExceptHandler → Nat
  | .mk body _ => 1 + stmtsCCIsolated body

/-- `handlerCCIsolated` over the handler list. -/
def handlersCCIsolated : List PyExceptHandler → Nat
  | [] => 0
  | h :: rest => handlerCCIsolated h + handlersCCIsolated rest
end

/-- Modelled from the spec: the complexity of a function under the
specification's per-function isolation reading — base 1 plus the
contributions of the function's own body with nested function
definitions excluded. -/
def cyclomaticComplexityIsolated (node : PyStmt) : Nat :=
  match node with
  | .functionDef _ _ body _ _ => 1 + stmtsCCIsolated body
  | s => 1 + stmtCCIsolated s

/-! ### Concrete instances used when settling the claims -/

/-- One external finding of severity `"high"` (worked example). -/
def exHighVuln : ExtVuln := { severity? := some "high" }

/-- One external finding of severity `"low"`. -/
def exLowVuln : ExtVuln := { severity? := some "low" }

/-- An external finding with every field missing. -/
def noSevVuln : ExtVuln := {}

/-- One static issue of kind `"logic"` and severity `"high"`
(worked example). -/
def exLogicHighIssue : StaticAnalysisIssue :=
  { type := "logic", category := "example", severity := "high", line_number := 1
    code_snippet := "", description := "", impact := "", remediation := "" }

/-- A static issue of kind `"logic"` and severity `"low"` with a
distinguishing category tag. -/
def lowLogicIssue (c : String) : StaticAnalysisIssue :=
  { type := "logic", category := c, severity := "low", line_number := 1
    code_snippet := "", description := "", impact := "", remediation := "" }

/-- Nine critical external findings: weighted sum `9 × 12 = 108`, so the
security sub-score clamps to 100 even with no density term. -/
def nineCritVulns : List ExtVuln := List.replicate 9 { severity? := some "critical" }

/-- Thirteen critical logic issues: weighted sum `13 × 8 = 104`, so the
static sub-score clamps to 100 even with no density term. -/
def thirteenCritIssues : List StaticAnalysisIssue :=
  List.replicate 13
    { type := "logic", category := "example", severity := "critical", line_number := 1
      code_snippet := "", description := "", impact := "", remediation := "" }

/-- A chain of `n` `if`-statements (each contributing 1 to cyclomatic
complexity), at lines `3, 4, …`. -/
def ifChain (n : Nat) : List PyStmt :=
  (List.range n).map fun k => .ifS (.name "x") [.passS (k + 3)] [] (k + 3)

/-- A function whose body is `n` `if`-statements: cyclomatic complexity
`n + 1`. -/
def fnWithIfs (n : Nat) : PyStmt := .functionDef "f" [] (ifChain n) 1 60

/-- `while True:` with a `pass` body — the qualifying infinite loop. -/
def whileTrueNoBreakMod : PyModule := [.whileS (.constBool true) [.passS 2] [] 1]

/-- `while True:` whose only `break` sits deep inside a nested `if`
inside a `for` — the walk still finds it and the rule is suppressed. -/
def whileTrueDeepBreakMod : PyModule :=
  [.whileS (.constBool true)
    [.forS "i" (.name "xs") [.ifS (.name "c") [.breakS 4] [] 3] [] 2]
    [] 1]

/-- `while True:` with a break-free body but a `break` inside a
`for`-loop in the `else:` clause of the `while` — Python allows this, and
`ast.walk(node)` finds that `Break` even though it is not in the body. -/
def whileTrueElseBreakMod : PyModule :=
  [.whileS (.constBool true) [.passS 2]
    [.forS "i" (.name "xs") [.breakS 5] [] 4] 1]

/-- A `while`-loop whose body contains a `for`-loop (the outer loop is a
`while`, which `visit_While` never hands to the nested-loop check). -/
def whileForMod : PyModule :=
  [.whileS (.name "c") [.forS "i" (.name "xs") [.passS 3] [] 2] [] 1]

/-- A `for`-loop whose body contains a `while`-loop. -/
def forWhileMod : PyModule :=
  [.forS "i" (.name "xs") [.whileS (.name "c") [.passS 3] [] 2] [] 1]

/-- An outer function with no branching of its own whose nested inner
function contains 11 `if`-statements. -/
def outerC5 : PyStmt := .functionDef "outer" [] [.functionDef "inner" [] (ifChain 11) 2 60] 1 60

/-! ## Helper lemmas -/

theorem catCount_nil (c : String) : catCount c [] = 0 := rfl

theorem catCount_append (c : String) (l₁ l₂ : List StaticAnalysisIssue) :
    catCount c (l₁ ++ l₂) = catCount c l₁ + catCount c l₂ :=
  List.countP_append _ _ _

theorem catCount_check_function_complexity (c : String) (lines : List String) (name : String)
    (body : List PyStmt) (ln eln : Nat)
    (h1 : c ≠ "long_function") (h2 : c ≠ "high_cyclomatic_complexity") :
    catCount c (check_function_complexity lines name body ln eln) = 0 := by
  have hA : catCount c (long_function_check lines name ln eln) = 0 := by
    unfold long_function_check
    dsimp only
    split_ifs <;> simp [catCount, List.countP_cons, beq_iff_eq, Ne.symm h1]
  have hB : catCount c (high_cc_check name body ln eln) = 0 := by
    unfold high_cc_check
    dsimp only
    split_ifs <;> simp [catCount, List.countP_cons, beq_iff_eq, Ne.symm h2]
  simp [check_function_complexity, catCount_append, hA, hB]

theorem catCount_check_unused_parameters (c : String) (name : String) (args : List String)
    (body : List PyStmt) (ln : Nat) (h1 : c ≠ "unused_parameter") :
    catCount c (check_unused_parameters name args body ln) = 0 := by
  unfold catCount
  rw [List.countP_eq_zero]
  intro i hi
  unfold check_unused_parameters at hi
  dsimp only at hi
  rw [List.mem_map] at hi
  obtain ⟨p, hp, rfl⟩ := hi
  simp [beq_iff_eq, Ne.symm h1]

theorem catCount_check_class_complexity (c : String) (name : String)
    (body : List PyStmt) (ln : Nat) (h1 : c ≠ "large_class") :
    catCount c (check_class_complexity name body ln) = 0 := by
  unfold check_class_complexity
  dsimp only
  split_ifs <;> simp [catCount, List.countP_cons, beq_iff_eq, Ne.symm h1]

theorem catCount_check_assignment_patterns (c : String) (lines : List String)
    (targets : List String) (value : PyExpr) (ln : Nat)
    (h1 : c ≠ "assignment_confusion") :
    catCount c (check_assignment_patterns lines targets value ln) = 0 := by
  unfold check_assignment_patterns
  induction targets with
  | nil => rfl
  | cons t ts ih =>
    rw [List.foldr_cons, catCount_append, ih, Nat.add_zero]
    cases value <;>
      first
      | rfl
      | (dsimp only; split_ifs <;> simp [catCount, List.countP_cons, beq_iff_eq, Ne.symm h1])

theorem catCount_check_call_performance (c : String) (lines : List String) (func : PyExpr)
    (ln : Nat) (h1 : c ≠ "sort_analysis") :
    catCount c (check_call_performance lines func ln) = 0 := by
  unfold check_call_performance
  cases func <;>
    first
    | rfl
    | (dsimp only
       split_ifs <;> simp [flag_sort_usage, catCount, List.countP_cons, beq_iff_eq, Ne.symm h1])

theorem catCount_check_loop_performance (c : String) (lines : List String)
    (body orelse : List PyStmt) (ln : Nat)
    (h1 : c ≠ "nested_loops") (h2 : c ≠ "list_comprehension_opportunity") :
    catCount c (check_loop_performance lines body orelse ln) = 0 := by
  have hA : catCount c (nested_loops_check lines body orelse ln) = 0 := by
    unfold nested_loops_check
    split_ifs <;> simp [catCount, List.countP_cons, beq_iff_eq, Ne.symm h1]
  have hB : catCount c (list_comprehension_check lines body ln) = 0 := by
    unfold list_comprehension_check
    split
    · split_ifs <;> simp [catCount, List.countP_cons, beq_iff_eq, Ne.symm h2]
    · rfl
  simp [check_loop_performance, catCount_append, hA, hB]

theorem catCount_check_while_loop_logic (c : String) (test : PyExpr)
    (body orelse : List PyStmt) (ln : Nat) (h1 : c ≠ "infinite_loop") :
    catCount c (check_while_loop_logic test body orelse ln) = 0 := by
  unfold check_while_loop_logic
  split_ifs <;> simp [catCount, List.countP_cons, beq_iff_eq, Ne.symm h1]

theorem catCount_check_conditional_logic (c : String) (lines : List String) (test : PyExpr)
    (ln : Nat) (h1 : c ≠ "always_true_condition") (h2 : c ≠ "always_false_condition") :
    catCount c (check_conditional_logic lines test ln) = 0 := by
  unfold check_conditional_logic
  split_ifs <;> simp [catCount, List.countP_cons, beq_iff_eq, Ne.symm h1, Ne.symm h2]

theorem catCount_check_comparison_logic (c : String) (lines : List String)
    (comparators : List PyExpr) (ln : Nat) (h1 : c ≠ "complex_chained_comparison") :
    catCount c (check_comparison_logic lines comparators ln) = 0 := by
  unfold check_comparison_logic
  split_ifs <;> simp [catCount, List.countP_cons, beq_iff_eq, Ne.symm h1]

theorem catCount_check_boolean_logic (c : String) (lines : List String) (ln : Nat)
    (h1 : c ≠ "bitwise_vs_logical") :
    catCount c (check_boolean_logic lines ln) = 0 := by
  unfold check_boolean_logic
  dsimp only
  split_ifs <;> simp [catCount, List.countP_cons, beq_iff_eq, Ne.symm h1]

mutual
theorem catCount_visitExprIssues (c : String) (lines : List String)
    (h1 : c ≠ "sort_analysis") (h2 : c ≠ "complex_chained_comparison")
    (h3 : c ≠ "bitwise_vs_logical") :
    ∀ e : PyExpr, catCount c (visitExprIssues lines e) = 0
  | .constBool _ => rfl
  | .constNone => rfl
  | .constInt _ => rfl
  | .constStr _ => rfl
  | .name _ => rfl
  | .attribute v _ => by
      have hv := catCount_visitExprIssues c lines h1 h2 h3 v
      simpa [visitExprIssues] using hv
  | .boolOp values ln => by
      have hl := catCount_visitExprIssuesList c lines h1 h2 h3 values
      simp [visitExprIssues, catCount_append, hl, catCount_check_boolean_logic c lines ln h3]
  | .compare l comps ln => by
      have hl := catCount_visitExprIssues c lines h1 h2 h3 l
      have hc := catCount_visitExprIssuesList c lines h1 h2 h3 comps
      simp [visitExprIssues, catCount_append, hl, hc,
        catCount_check_comparison_logic c lines comps ln h2]
  | .call f args ln => by
      have hf := catCount_visitExprIssues c lines h1 h2 h3 f
      have ha := catCount_visitExprIssuesList c lines h1 h2 h3 args
      simp [visitExprIssues, catCount_append, hf, ha,
        catCount_check_call_performance c lines f ln h1]

theorem catCount_visitExprIssuesList (c : String) (lines : List String)
    (h1 : c ≠ "sort_analysis") (h2 : c ≠ "complex_chained_comparison")
    (h3 : c ≠ "bitwise_vs_logical") :
    ∀ es : List PyExpr, catCount c (visitExprIssuesList lines es) = 0
  | [] => rfl
  | e :: rest => by
      have he := catCount_visitExprIssues c lines h1 h2 h3 e
      have hr := catCount_visitExprIssuesList c lines h1 h2 h3 rest
      simp [visitExprIssuesList, catCount_append, he, hr]
end

theorem catCount_unused_function_issues (c : String) (st : NameState)
    (h1 : c ≠ "unused_function") : catCount c (unused_function_issues st) = 0 := by
  unfold unused_function_issues
  generalize st.function_definitions = l
  induction l with
  | nil => rfl
  | cons p ps ih =>
    rw [List.foldr_cons, catCount_append, ih, Nat.add_zero]
    split_ifs <;> simp [catCount, List.countP_cons, beq_iff_eq, Ne.symm h1]

theorem catCount_unused_class_issues (c : String) (st : NameState)
    (h1 : c ≠ "unused_class") : catCount c (unused_class_issues st) = 0 := by
  unfold unused_class_issues
  generalize st.class_definitions = l
  induction l with
  | nil => rfl
  | cons p ps ih =>
    rw [List.foldr_cons, catCount_append, ih, Nat.add_zero]
    split_ifs <;> simp [catCount, List.countP_cons, beq_iff_eq, Ne.symm h1]

theorem catCount_unused_variable_issues (c : String) (st : NameState)
    (h1 : c ≠ "unused_variable") : catCount c (unused_variable_issues st) = 0 := by
  unfold unused_variable_issues
  generalize st.variable_assignments = l
  induction l with
  | nil => rfl
  | cons p ps ih =>
    rw [List.foldr_cons, catCount_append, ih, Nat.add_zero]
    split_ifs <;> simp [catCount, List.countP_cons, beq_iff_eq, Ne.symm h1]

theorem catCount_check_unused_definitions (c : String) (st : NameState)
    (h1 : c ≠ "unused_function") (h2 : c ≠ "unused_class") (h3 : c ≠ "unused_variable") :
    catCount c (check_unused_definitions st) = 0 := by
  unfold check_unused_definitions
  rw [catCount_append, catCount_append, catCount_unused_function_issues c st h1,
    catCount_unused_class_issues c st h2, catCount_unused_variable_issues c st h3]

theorem catCount_membership_test_issues (c : String)
    (h1 : c ≠ "inefficient_membership_test") :
    ∀ (ls : List String) (i1 : Nat), catCount c (membership_test_issues ls i1) = 0
  | [], _ => rfl
  | l :: rest, i1 => by
      have ih := catCount_membership_test_issues c h1 rest (i1 + 1)
      rw [membership_test_issues, catCount_append, ih, Nat.add_zero]
      split_ifs <;> simp [catCount, List.countP_cons, beq_iff_eq, Ne.symm h1]

theorem catCount_repeated_computation_scan (c : String)
    (h1 : c ≠ "repeated_computation") :
    ∀ (ls : List String) (j1 : Nat), catCount c (repeated_computation_scan ls j1) = 0
  | [], _ => rfl
  | l :: rest, j1 => by
      have ih := catCount_repeated_computation_scan c h1 rest (j1 + 1)
      rw [repeated_computation_scan]
      split_ifs with hb hl
      · simp [catCount, List.countP_cons, beq_iff_eq, Ne.symm h1]
      · exact ih
      · rfl

theorem catCount_repeated_computation_issues (c : String)
    (h1 : c ≠ "repeated_computation") :
    ∀ (ls : List String) (i1 : Nat), catCount c (repeated_computation_issues ls i1) = 0
  | [], _ => rfl
  | l :: rest, i1 => by
      have ih := catCount_repeated_computation_issues c h1 rest (i1 + 1)
      rw [repeated_computation_issues, catCount_append, ih, Nat.add_zero]
      split_ifs with h
      · exact catCount_repeated_computation_scan c h1 rest (i1 + 1)
      · rfl

theorem catCount_check_performance_patterns (c : String) (lines : List String)
    (h1 : c ≠ "inefficient_membership_test") (h2 : c ≠ "repeated_computation") :
    catCount c (check_performance_patterns lines) = 0 := by
  unfold check_performance_patterns
  rw [catCount_append, catCount_repeated_computation_issues c h2 lines 1, Nat.add_zero]
  split_ifs with h
  · exact catCount_membership_test_issues c h1 lines 1
  · rfl

theorem catCount_unreachable_scan (c : String) (ind : Nat)
    (h1 : c ≠ "unreachable_code") :
    ∀ (ls : List String) (j1 : Nat), catCount c (unreachable_scan ind ls j1) = 0
  | [], _ => rfl
  | l :: rest, j1 => by
      have ih := catCount_unreachable_scan c ind h1 rest (j1 + 1)
      rw [unreachable_scan]
      split_ifs with hb hi
      · simp [catCount, List.countP_cons, beq_iff_eq, Ne.symm h1]
      · rfl
      · exact ih

theorem catCount_check_logic_patterns (c : String) (h1 : c ≠ "unreachable_code") :
    ∀ (ls : List String) (i1 : Nat), catCount c (check_logic_patterns ls i1) = 0
  | [], _ => rfl
  | l :: rest, i1 => by
      have ih := catCount_check_logic_patterns c h1 rest (i1 + 1)
      rw [check_logic_patterns, catCount_append, ih, Nat.add_zero]
      split_ifs with h
      · exact catCount_unreachable_scan c (indentWidth l) h1 rest (i1 + 1)
      · rfl

theorem catCount_analyze_ok (c : String) (m : PyModule) (lines : List String)
    (h1 : c ≠ "unused_function") (h2 : c ≠ "unused_class") (h3 : c ≠ "unused_variable")
    (h4 : c ≠ "inefficient_membership_test") (h5 : c ≠ "repeated_computation")
    (h6 : c ≠ "unreachable_code") :
    catCount c (analyze (.ok m) lines) = catCount c (visitStmtIssuesList lines m) := by
  unfold analyze
  rw [catCount_append, catCount_append, catCount_append,
    catCount_check_unused_definitions c _ h1 h2 h3,
    catCount_check_performance_patterns c lines h4 h5,
    catCount_check_logic_patterns c h6 lines 1]
  simp

mutual
theorem catCount_inf_visitStmt (lines : List String) :
    ∀ s : PyStmt, catCount "infinite_loop" (visitStmtIssues lines s) = stmtInfLoops s
  | .functionDef name args body ln eln => by
      have hb := catCount_inf_visitStmts lines body
      simp [visitStmtIssues, stmtInfLoops, catCount_append, hb,
        catCount_check_function_complexity "infinite_loop" lines name body ln eln (by decide) (by decide),
        catCount_check_unused_parameters "infinite_loop" name args body ln (by decide)]
  | .classDef name body ln => by
      have hb := catCount_inf_visitStmts lines body
      simp [visitStmtIssues, stmtInfLoops, catCount_append, hb,
        catCount_check_class_complexity "infinite_loop" name body ln (by decide)]
  | .assign targets value ln => by
      simp [visitStmtIssues, stmtInfLoops, catCount_append,
        catCount_check_assignment_patterns "infinite_loop" lines targets value ln (by decide),
        catCount_visitExprIssues "infinite_loop" lines (by decide) (by decide) (by decide) value]
  | .ret value ln => by
      cases value with
      | none => rfl
      | some e =>
        simpa [visitStmtIssues, stmtInfLoops] using
          catCount_visitExprIssues "infinite_loop" lines (by decide) (by decide) (by decide) e
  | .exprStmt value ln => by
      simpa [visitStmtIssues, stmtInfLoops] using
        catCount_visitExprIssues "infinite_loop" lines (by decide) (by decide) (by decide) value
  | .whileS test body orelse ln => by
      have hb := catCount_inf_visitStmts lines body
      have ho := catCount_inf_visitStmts lines orelse
      have ht := catCount_visitExprIssues "infinite_loop" lines (by decide) (by decide)
        (by decide) test
      simp only [visitStmtIssues, stmtInfLoops, catCount_append, hb, ho, ht]
      unfold check_while_loop_logic
      split_ifs <;> simp_all [catCount, List.countP_cons]
  | .forS tgt iter body orelse ln => by
      have hb := catCount_inf_visitStmts lines body
      have ho := catCount_inf_visitStmts lines orelse
      simp [visitStmtIssues, stmtInfLoops, catCount_append, hb, ho,
        catCount_check_loop_performance "infinite_loop" lines body orelse ln (by decide) (by decide),
        catCount_visitExprIssues "infinite_loop" lines (by decide) (by decide) (by decide) iter]
  | .ifS test body orelse ln => by
      have hb := catCount_inf_visitStmts lines body
      have ho := catCount_inf_visitStmts lines orelse
      simp [visitStmtIssues, stmtInfLoops, catCount_append, hb, ho,
        catCount_check_conditional_logic "infinite_loop" lines test ln (by decide) (by decide),
        catCount_visitExprIssues "infinite_loop" lines (by decide) (by decide) (by decide) test]
  | .withS items body ln => by
      have hb := catCount_inf_visitStmts lines body
      simp [visitStmtIssues, stmtInfLoops, catCount_append, hb,
        catCount_visitExprIssuesList "infinite_loop" lines (by decide) (by decide) (by decide) items]
  | .tryS body handlers orelse finalbody ln => by
      have hb := catCount_inf_visitStmts lines body
      have hh := catCount_inf_visitHandlers lines handlers
      have ho := catCount_inf_visitStmts lines orelse
      have hf := catCount_inf_visitStmts lines finalbody
      simp [visitStmtIssues, stmtInfLoops, catCount_append, hb, hh, ho, hf]
      omega
  | .breakS _ => rfl
  | .continueS _ => rfl
  | .passS _ => rfl

theorem catCount_inf_visitStmts (lines : List String) :
    ∀ l : List PyStmt, catCount "infinite_loop" (visitStmtIssuesList lines l) = stmtsInfLoops l
  | [] => rfl
  | s :: rest => by
      have hs := catCount_inf_visitStmt lines s
      have hr := catCount_inf_visitStmts lines rest
      simp [visitStmtIssuesList, stmtsInfLoops, catCount_append, hs, hr]

theorem catCount_inf_visitHandler (lines : List String) :
    ∀ h : PyExceptHandler, catCount "infinite_loop" (visitHandlerIssues lines h) = handlerInfLoops h
  | .mk body _ => by
      simpa [visitHandlerIssues, handlerInfLoops] using catCount_inf_visitStmts lines body

theorem catCount_inf_visitHandlers (lines : List String) :
    ∀ hs : List PyExceptHandler,
      catCount "infinite_loop" (visitHandlerIssuesList lines hs) = handlersInfLoops hs
  | [] => rfl
  | h :: rest => by
      have h1 := catCount_inf_visitHandler lines h
      have hr := catCount_inf_visitHandlers lines rest
      simp [visitHandlerIssuesList, handlersInfLoops, catCount_append, h1, hr]
end

mutual
theorem catCount_nested_visitStmt (lines : List String) :
    ∀ s : PyStmt, catCount "nested_loops" (visitStmtIssues lines s) = stmtForNested s
  | .functionDef name args body ln eln => by
      have hb := catCount_nested_visitStmts lines body
      simp [visitStmtIssues, stmtForNested, catCount_append, hb,
        catCount_check_function_complexity "nested_loops" lines name body ln eln
          (by decide) (by decide),
        catCount_check_unused_parameters "nested_loops" name args body ln (by decide)]
  | .classDef name body ln => by
      have hb := catCount_nested_visitStmts lines body
      simp [visitStmtIssues, stmtForNested, catCount_append, hb,
        catCount_check_class_complexity "nested_loops" name body ln (by decide)]
  | .assign targets value ln => by
      simp [visitStmtIssues, stmtForNested, catCount_append,
        catCount_check_assignment_patterns "nested_loops" lines targets value ln (by decide),
        catCount_visitExprIssues "nested_loops" lines (by decide) (by decide) (by decide) value]
  | .ret value ln => by
      cases value with
      | none => rfl
      | some e =>
        simpa [visitStmtIssues, stmtForNested] using
          catCount_visitExprIssues "nested_loops" lines (by decide) (by decide) (by decide) e
  | .exprStmt value ln => by
      simpa [visitStmtIssues, stmtForNested] using
        catCount_visitExprIssues "nested_loops" lines (by decide) (by decide) (by decide) value
  | .whileS test body orelse ln => by
      have hb := catCount_nested_visitStmts lines body
      have ho := catCount_nested_visitStmts lines orelse
      simp [visitStmtIssues, stmtForNested, catCount_append, hb, ho,
        catCount_check_while_loop_logic "nested_loops" test body orelse ln (by decide),
        catCount_visitExprIssues "nested_loops" lines (by decide) (by decide) (by decide) test]
  | .forS tgt iter body orelse ln => by
      have hb := catCount_nested_visitStmts lines body
      have ho := catCount_nested_visitStmts lines orelse
      have hi := catCount_visitExprIssues "nested_loops" lines (by decide) (by decide)
        (by decide) iter
      have hlc : catCount "nested_loops" (list_comprehension_check lines body ln) = 0 := by
        unfold list_comprehension_check
        split
        · split_ifs <;> simp [catCount, List.countP_cons]
        · rfl
      simp only [visitStmtIssues, stmtForNested, check_loop_performance, catCount_append,
        hb, ho, hi, hlc]
      unfold nested_loops_check
      split_ifs <;> simp_all [catCount, List.countP_cons]
  | .ifS test body orelse ln => by
      have hb := catCount_nested_visitStmts lines body
      have ho := catCount_nested_visitStmts lines orelse
      simp [visitStmtIssues, stmtForNested, catCount_append, hb, ho,
        catCount_check_conditional_logic "nested_loops" lines test ln (by decide) (by decide),
        catCount_visitExprIssues "nested_loops" lines (by decide) (by decide) (by decide) test]
  | .withS items body ln => by
      have hb := catCount_nested_visitStmts lines body
      simp [visitStmtIssues, stmtForNested, catCount_append, hb,
        catCount_visitExprIssuesList "nested_loops" lines (by decide) (by decide)
          (by decide) items]
  | .tryS body handlers orelse finalbody ln => by
      have hb := catCount_nested_visitStmts lines body
      have hh := catCount_nested_visitHandlers lines handlers
      have ho := catCount_nested_visitStmts lines orelse
      have hf := catCount_nested_visitStmts lines finalbody
      simp [visitStmtIssues, stmtForNested, catCount_append, hb, hh, ho, hf]
      omega
  | .breakS _ => rfl
  | .continueS _ => rfl
  | .passS _ => rfl

theorem catCount_nested_visitStmts (lines : List String) :
    ∀ l : List PyStmt, catCount "nested_loops" (visitStmtIssuesList lines l) = stmtsForNested l
  | [] => rfl
  | s :: rest => by
      have hs := catCount_nested_visitStmt lines s
      have hr := catCount_nested_visitStmts lines rest
      simp [visitStmtIssuesList, stmtsForNested, catCount_append, hs, hr]

theorem catCount_nested_visitHandler (lines : List String) :
    ∀ h : PyExceptHandler,
      catCount "nested_loops" (visitHandlerIssues lines h) = handlerForNested h
  | .mk body _ => by
      simpa [visitHandlerIssues, handlerForNested] using catCount_nested_visitStmts lines body

theorem catCount_nested_visitHandlers (lines : List String) :
    ∀ hs : List PyExceptHandler,
      catCount "nested_loops" (visitHandlerIssuesList lines hs) = handlersForNested hs
  | [] => rfl
  | h :: rest => by
      have h1 := catCount_nested_visitHandler lines h
      have hr := catCount_nested_visitHandlers lines rest
      simp [visitHandlerIssuesList, handlersForNested, catCount_append, h1, hr]
end

theorem cyclomaticComplexityOf_functionDef (name : String) (args : List String)
    (body : List PyStmt) (ln eln : Nat) :
    cyclomaticComplexityOf (.functionDef name args body ln eln) = 1 + stmtCCList body := rfl

mutual
theorem catCount_hcc_visitStmt (lines : List String) :
    ∀ s : PyStmt,
      catCount "high_cyclomatic_complexity" (visitStmtIssues lines s) = stmtHighCCFns s
  | .functionDef name args body ln eln => by
      have hb := catCount_hcc_visitStmts lines body
      have hup := catCount_check_unused_parameters "high_cyclomatic_complexity" name args body ln
        (by decide)
      have hlf : catCount "high_cyclomatic_complexity" (long_function_check lines name ln eln)
          = 0 := by
        unfold long_function_check
        dsimp only
        split_ifs <;> simp [catCount, List.countP_cons]
      simp only [visitStmtIssues, stmtHighCCFns, check_function_complexity, catCount_append,
        hb, hup, hlf]
      unfold high_cc_check
      dsimp only
      split_ifs <;> simp_all [catCount, List.countP_cons, cyclomaticComplexityOf_functionDef]
      all_goals omega
  | .classDef name body ln => by
      have hb := catCount_hcc_visitStmts lines body
      simp [visitStmtIssues, stmtHighCCFns, catCount_append, hb,
        catCount_check_class_complexity "high_cyclomatic_complexity" name body ln (by decide)]
  | .assign targets value ln => by
      simp [visitStmtIssues, stmtHighCCFns, catCount_append,
        catCount_check_assignment_patterns "high_cyclomatic_complexity" lines targets value ln
          (by decide),
        catCount_visitExprIssues "high_cyclomatic_complexity" lines (by decide) (by decide)
          (by decide) value]
  | .ret value ln => by
      cases value with
      | none => rfl
      | some e =>
        simpa [visitStmtIssues, stmtHighCCFns] using
          catCount_visitExprIssues "high_cyclomatic_complexity" lines (by decide) (by decide)
            (by decide) e
  | .exprStmt value ln => by
      simpa [visitStmtIssues, stmtHighCCFns] using
        catCount_visitExprIssues "high_cyclomatic_complexity" lines (by decide) (by decide)
          (by decide) value
  | .whileS test body orelse ln => by
      have hb := catCount_hcc_visitStmts lines body
      have ho := catCount_hcc_visitStmts lines orelse
      simp [visitStmtIssues, stmtHighCCFns, catCount_append, hb, ho,
        catCount_check_while_loop_logic "high_cyclomatic_complexity" test body orelse ln
          (by decide),
        catCount_visitExprIssues "high_cyclomatic_complexity" lines (by decide) (by decide)
          (by decide) test]
  | .forS tgt iter body orelse ln => by
      have hb := catCount_hcc_visitStmts lines body
      have ho := catCount_hcc_visitStmts lines orelse
      simp [visitStmtIssues, stmtHighCCFns, catCount_append, hb, ho,
        catCount_check_loop_performance "high_cyclomatic_complexity" lines body orelse ln
          (by decide) (by decide),
        catCount_visitExprIssues "high_cyclomatic_complexity" lines (by decide) (by decide)
          (by decide) iter]
  | .ifS test body orelse ln => by
      have hb := catCount_hcc_visitStmts lines body
      have ho := catCount_hcc_visitStmts lines orelse
      simp [visitStmtIssues, stmtHighCCFns, catCount_append, hb, ho,
        catCount_check_conditional_logic "high_cyclomatic_complexity" lines test ln
          (by decide) (by decide),
        catCount_visitExprIssues "high_cyclomatic_complexity" lines (by decide) (by decide)
          (by decide) test]
  | .withS items body ln => by
      have hb := catCount_hcc_visitStmts lines body
      simp [visitStmtIssues, stmtHighCCFns, catCount_append, hb,
        catCount_visitExprIssuesList "high_cyclomatic_complexity" lines (by decide) (by decide)
          (by decide) items]
  | .tryS body handlers orelse finalbody ln => by
      have hb := catCount_hcc_visitStmts lines body
      have hh := catCount_hcc_visitHandlers lines handlers
      have ho := catCount_hcc_visitStmts lines orelse
      have hf := catCount_hcc_visitStmts lines finalbody
      simp [visitStmtIssues, stmtHighCCFns, catCount_append, hb, hh, ho, hf]
      omega
  | .breakS _ => rfl
  | .continueS _ => rfl
  | .passS _ => rfl

theorem catCount_hcc_visitStmts (lines : List String) :
    ∀ l : List PyStmt,
      catCount "high_cyclomatic_complexity" (visitStmtIssuesList lines l) = stmtsHighCCFns l
  | [] => rfl
  | s :: rest => by
      have hs := catCount_hcc_visitStmt lines s
      have hr := catCount_hcc_visitStmts lines rest
      simp [visitStmtIssuesList, stmtsHighCCFns, catCount_append, hs, hr]

theorem catCount_hcc_visitHandler (lines : List String) :
    ∀ h : PyExceptHandler,
      catCount "high_cyclomatic_complexity" (visitHandlerIssues lines h) = handlerHighCCFns h
  | .mk body _ => by
      simpa [visitHandlerIssues, handlerHighCCFns] using catCount_hcc_visitStmts lines body

theorem catCount_hcc_visitHandlers (lines : List String) :
    ∀ hs : List PyExceptHandler,
      catCount "high_cyclomatic_complexity" (visitHandlerIssuesList lines hs)
        = handlersHighCCFns hs
  | [] => rfl
  | h :: rest => by
      have h1 := catCount_hcc_visitHandler lines h
      have hr := catCount_hcc_visitHandlers lines rest
      simp [visitHandlerIssuesList, handlersHighCCFns, catCount_append, h1, hr]
end

theorem staticWeightsLogic_getD_nonneg (sev : String) :
    0 ≤ (staticWeightsLogic sev).getD 1 := by
  unfold staticWeightsLogic
  split_ifs <;> norm_num

theorem staticWeightsPerformance_getD_nonneg (sev : String) :
    0 ≤ (staticWeightsPerformance sev).getD 1 := by
  unfold staticWeightsPerformance
  split_ifs <;> norm_num

theorem staticWeightsRelevance_getD_nonneg (sev : String) :
    0 ≤ (staticWeightsRelevance sev).getD 1 := by
  unfold staticWeightsRelevance
  split_ifs <;> norm_num

theorem staticWeightsComplexity_getD_nonneg (sev : String) :
    0 ≤ (staticWeightsComplexity sev).getD 1 := by
  unfold staticWeightsComplexity
  split_ifs <;> norm_num

theorem staticIssueWeight_nonneg (t sev : String) : 0 ≤ staticIssueWeight t sev := by
  unfold staticIssueWeight staticWeightsGet
  split_ifs <;>
    first
    | exact staticWeightsLogic_getD_nonneg sev
    | exact staticWeightsPerformance_getD_nonneg sev
    | exact staticWeightsRelevance_getD_nonneg sev
    | exact staticWeightsComplexity_getD_nonneg sev

theorem compute_security_score_nonneg (f : GeminiFindings) (tl : Int) :
    0 ≤ compute_security_score f tl := by
  unfold compute_security_score
  cases f.vulnerabilities with
  | none => exact le_refl 0
  | some vulns =>
    dsimp only
    split_ifs with h1 h2
    · exact le_refl 0
    · refine le_min (by norm_num) (Int.le_floor.mpr ?_)
      have htl : (0 : ℚ) < (tl : ℚ) := by exact_mod_cast h2
      have hw : (0 : ℚ) ≤ (((vulns.map fun v =>
          (SEVERITY_WEIGHTS (pyLower (v.severity?.getD "low"))).getD 1).sum : ℕ) : ℚ) :=
        Nat.cast_nonneg _
      have hd : (0 : ℚ) ≤ (vulns.length : ℚ) / (tl : ℚ) * 100 :=
        mul_nonneg (div_nonneg (Nat.cast_nonneg _) htl.le) (by norm_num)
      have := add_nonneg hw hd
      exact_mod_cast this
    · refine le_min (by norm_num) (Int.le_floor.mpr ?_)
      simp only [add_zero]
      positivity

theorem compute_security_score_le (f : GeminiFindings) (tl : Int) :
    compute_security_score f tl ≤ 100 := by
  unfold compute_security_score
  cases f.vulnerabilities with
  | none => norm_num
  | some vulns =>
    dsimp only
    split_ifs <;> simp [min_le_left]

theorem staticWeightSum_nonneg (s : List StaticAnalysisIssue) :
    0 ≤ (s.map fun f => staticIssueWeight f.type f.severity).sum := by
  refine List.sum_nonneg ?_
  intro x hx
  rw [List.mem_map] at hx
  obtain ⟨i, _, rfl⟩ := hx
  exact staticIssueWeight_nonneg _ _

theorem compute_static_analysis_score_nonneg (s : List StaticAnalysisIssue) (tl : Int) :
    0 ≤ compute_static_analysis_score s tl := by
  unfold compute_static_analysis_score
  split_ifs with h1 h2
  · exact le_refl 0
  · refine le_min (by norm_num) (Int.le_floor.mpr ?_)
    push_cast
    have hs := staticWeightSum_nonneg s
    have hd : (0 : ℚ) ≤ (s.length : ℚ) / (tl : ℚ) * 50 := by positivity
    linarith
  · refine le_min (by norm_num) (Int.le_floor.mpr ?_)
    push_cast
    have hs := staticWeightSum_nonneg s
    linarith

theorem compute_static_analysis_score_le (s : List StaticAnalysisIssue) (tl : Int) :
    compute_static_analysis_score s tl ≤ 100 := by
  unfold compute_static_analysis_score
  split_ifs <;> simp [min_le_left]

theorem compute_risk_score_nonneg (f : GeminiFindings) (s : List StaticAnalysisIssue)
    (tl : Int) : 0 ≤ compute_risk_score f s tl := by
  unfold compute_risk_score
  have h1 := compute_security_score_nonneg f tl
  have h2 := compute_static_analysis_score_nonneg s tl
  refine le_min (by norm_num) (Int.le_floor.mpr ?_)
  push_cast
  have : (0 : ℚ) ≤ (compute_security_score f tl : ℚ) := by exact_mod_cast h1
  have : (0 : ℚ) ≤ (compute_static_analysis_score s tl : ℚ) := by exact_mod_cast h2
  nlinarith

theorem compute_risk_score_le (f : GeminiFindings) (s : List StaticAnalysisIssue)
    (tl : Int) : compute_risk_score f s tl ≤ 100 := by
  unfold compute_risk_score
  exact min_le_left _ _

theorem stmtCCList_append (a b : List PyStmt) :
    stmtCCList (a ++ b) = stmtCCList a + stmtCCList b := by
  induction a with
  | nil => simp [stmtCCList]
  | cons s rest ih => simp [stmtCCList, ih]; omega

theorem sec_example_eval :
    compute_security_score ⟨some [exHighVuln], none, none⟩ 100 = 8 := by
  have hsum : (([exHighVuln]).map fun v =>
      (SEVERITY_WEIGHTS (pyLower (v.severity?.getD "low"))).getD 1).sum = 7 := by decide
  simp only [compute_security_score, hsum]
  norm_num

theorem stat_example_eval :
    compute_static_analysis_score [exLogicHighIssue] 100 = 5 := by
  have hsum : (([exLogicHighIssue]).map fun f => staticIssueWeight f.type f.severity).sum = 5 := by
    simp [exLogicHighIssue, staticIssueWeight, staticWeightsGet, staticWeightsLogic]
  simp only [compute_static_analysis_score, hsum]
  norm_num

theorem sec_boundary_eval :
    compute_security_score ⟨some nineCritVulns, none, none⟩ 0 = 100 := by
  have hsum : ((nineCritVulns).map fun v =>
      (SEVERITY_WEIGHTS (pyLower (v.severity?.getD "low"))).getD 1).sum = 108 := by decide
  simp only [compute_security_score, hsum]
  norm_num [nineCritVulns]

theorem stat_boundary_eval :
    compute_static_analysis_score thirteenCritIssues 0 = 100 := by
  have hsum : ((thirteenCritIssues).map fun f =>
      staticIssueWeight f.type f.severity).sum = 104 := by
    simp [thirteenCritIssues, staticIssueWeight, staticWeightsGet, staticWeightsLogic,
      List.replicate]
    norm_num
  simp only [compute_static_analysis_score, hsum]
  norm_num [thirteenCritIssues]

theorem sec_low_eval :
    compute_security_score ⟨some [exLowVuln], none, none⟩ 0 = 1 := by
  have hsum : (([exLowVuln]).map fun v =>
      (SEVERITY_WEIGHTS (pyLower (v.severity?.getD "low"))).getD 1).sum = 1 := by decide
  simp only [compute_security_score, hsum]
  norm_num

theorem stat_four_low_eval :
    compute_static_analysis_score
      [lowLogicIssue "a", lowLogicIssue "b", lowLogicIssue "c", lowLogicIssue "d"] 0 = 4 := by
  have hsum : (([lowLogicIssue "a", lowLogicIssue "b", lowLogicIssue "c",
      lowLogicIssue "d"]).map fun f => staticIssueWeight f.type f.severity).sum = 4 := by
    simp [lowLogicIssue, staticIssueWeight, staticWeightsGet, staticWeightsLogic]
    norm_num
  simp only [compute_static_analysis_score, hsum]
  norm_num

/-! ## The claims -/

/-- **C1** (corrected).  The claim as stated — combined score
`= clamp(round(0.8·security + 0.2·static), 0, 100)` for *every* pair of
sub-scores — is false: the source applies Python `int(…)`, which
truncates.  At security sub-score 1 and static sub-score 4 the exact
blend is 1.6; rounding gives 2, but the code returns 1.  This theorem
exhibits that input. -/
theorem claim_C1_counterexample :
    compute_security_score ⟨some [exLowVuln], none, none⟩ 0 = 1 ∧
    compute_static_analysis_score
      [lowLogicIssue "a", lowLogicIssue "b", lowLogicIssue "c", lowLogicIssue "d"] 0 = 4 ∧
    compute_risk_score ⟨some [exLowVuln], none, none⟩
      [lowLogicIssue "a", lowLogicIssue "b", lowLogicIssue "c", lowLogicIssue "d"] 0 = 1 ∧
    min 100 (max 0 (round ((0.8 : ℚ) * 1 + (0.2 : ℚ) * 4))) = 2 := by
  refine ⟨sec_low_eval, stat_four_low_eval, ?_, by norm_num [round_eq]⟩
  simp only [compute_risk_score, sec_low_eval, stat_four_low_eval]
  norm_num

/-- **C1** (amended).  The combined risk score is
`clamp(⌊0.8·security_sub_score + 0.2·static_sub_score⌋, 0, 100)` — the
blend is truncated (Python `int`), not rounded.  The spec's worked
example (sub-scores 8 and 5 at 100 lines, combined 7) and both
boundary cases (100/100 → 100, empty inputs → 0) hold. -/
theorem claim_C1 :
    (∀ (f : GeminiFindings) (s : List StaticAnalysisIssue) (tl : Int),
      compute_risk_score f s tl =
        min 100 (max 0 ⌊(0.8 : ℚ) * (compute_security_score f tl : ℚ)
          + (0.2 : ℚ) * (compute_static_analysis_score s tl : ℚ)⌋)) ∧
    compute_risk_score ⟨some [exHighVuln], none, none⟩ [exLogicHighIssue] 100 = 7 ∧
    compute_risk_score ⟨some nineCritVulns, none, none⟩ thirteenCritIssues 0 = 100 ∧
    compute_risk_score ⟨none, none, none⟩ [] 17 = 0 := by
  refine ⟨?_, ?_, ?_, ?_⟩
  · intro f s tl
    have h1 := compute_security_score_nonneg f tl
    have h2 := compute_static_analysis_score_nonneg s tl
    have harg : (0 : ℚ) ≤ (compute_security_score f tl : ℚ) * (0.8 : ℚ)
        + (compute_static_analysis_score s tl : ℚ) * (0.2 : ℚ) := by
      have hc1 : (0 : ℚ) ≤ (compute_security_score f tl : ℚ) := by exact_mod_cast h1
      have hc2 : (0 : ℚ) ≤ (compute_static_analysis_score s tl : ℚ) := by exact_mod_cast h2
      nlinarith
    have h0 : (0 : ℤ) ≤ ⌊(compute_security_score f tl : ℚ) * (0.8 : ℚ)
        + (compute_static_analysis_score s tl : ℚ) * (0.2 : ℚ)⌋ :=
      Int.le_floor.mpr (by simpa using harg)
    unfold compute_risk_score
    rw [mul_comm (0.8 : ℚ), mul_comm (0.2 : ℚ), max_eq_right h0]
  · simp only [compute_risk_score, sec_example_eval, stat_example_eval]
    norm_num
  · simp only [compute_risk_score, sec_boundary_eval, stat_boundary_eval]
    norm_num
  · simp [compute_risk_score, compute_security_score, compute_static_analysis_score]

/-- **C2** (confirmed).  For arbitrary external findings (any or missing
severity strings), arbitrary static issues, and any `total_lines`
(including 0), the risk score and both sub-scores are integers in
[0, 100], and `total_lines = 0` turns both density terms into 0 instead
of failing. -/
theorem claim_C2 :
    (∀ (f : GeminiFindings) (s : List StaticAnalysisIssue) (tl : Int),
      0 ≤ compute_risk_score f s tl ∧ compute_risk_score f s tl ≤ 100) ∧
    (∀ (f : GeminiFindings) (tl : Int),
      0 ≤ compute_security_score f tl ∧ compute_security_score f tl ≤ 100) ∧
    (∀ (s : List StaticAnalysisIssue) (tl : Int),
      0 ≤ compute_static_analysis_score s tl ∧ compute_static_analysis_score s tl ≤ 100) ∧
    (∀ vulns : List ExtVuln,
      compute_security_score ⟨some vulns, none, none⟩ 0 =
        if vulns.isEmpty then 0
        else min 100 (((vulns.map fun v =>
          (SEVERITY_WEIGHTS (pyLower (v.severity?.getD "low"))).getD 1).sum : ℤ))) ∧
    (∀ s : List StaticAnalysisIssue,
      compute_static_analysis_score s 0 =
        if s.isEmpty then 0
        else min 100 ⌊(s.map fun i => staticIssueWeight i.type i.severity).sum⌋) := by
  refine ⟨fun f s tl => ⟨compute_risk_score_nonneg f s tl, compute_risk_score_le f s tl⟩,
    fun f tl => ⟨compute_security_score_nonneg f tl, compute_security_score_le f tl⟩,
    fun s tl => ⟨compute_static_analysis_score_nonneg s tl, compute_static_analysis_score_le s tl⟩,
    ?_, ?_⟩
  · intro vulns
    unfold compute_security_score
    dsimp only
    split_ifs with h h2
    · rfl
    · exact absurd h2 (by norm_num)
    · rw [add_zero, Int.floor_natCast]
  · intro s
    unfold compute_static_analysis_score
    dsimp only
    split_ifs with h h2
    · rfl
    · exact absurd h2 (by norm_num)
    · rw [add_zero]

/-- **C7** (corrected — counterexample).  The claim that the constructed
`Finding` record carries severity `"low"` for a finding with missing
severity is false: `create_report` copies `v.get("severity")` with no
default, so the `Finding` carries the missing marker (`None`), not
`"low"`. -/
theorem claim_C7_counterexample :
    ((create_report ⟨some [noSevVuln], none, none⟩ [] 0 "python" none 0 0).vulnerabilities.map
      fun fi => fi.severity) = [none] ∧ (none : Option String) ≠ some "low" := by
  exact ⟨rfl, by decide⟩

/-- **C7** (amended).  A missing severity defaults to `"low"` for
scoring — the finding contributes weight 1 to the security sub-score —
and no malformed external finding makes the batch fail: the report always
contains one `Finding` per external finding plus one per static issue.
But the constructed `Finding` carries the severity exactly as supplied
(`None` when missing), not the defaulted `"low"`. -/
theorem claim_C7 :
    compute_security_score ⟨some [noSevVuln], none, none⟩ 0 = 1 ∧
    (SEVERITY_WEIGHTS (pyLower ((none : Option String).getD "low"))).getD 1 = 1 ∧
    (∀ v : ExtVuln, (findingOfExtVuln v).severity = v.severity?) ∧
    (∀ (f : GeminiFindings) (s : List StaticAnalysisIssue) (tl : Int) (lang : String)
        (fp : Option String) (dur : ℚ) (now : Nat),
      (create_report f s tl lang fp dur now).vulnerabilities.length =
        (f.vulnerabilities.getD []).length + s.length) := by
  refine ⟨?_, by decide, fun v => rfl, ?_⟩
  · have hsum : (([noSevVuln]).map fun v =>
        (SEVERITY_WEIGHTS (pyLower (v.severity?.getD "low"))).getD 1).sum = 1 := by decide
    simp only [compute_security_score, hsum]
    norm_num
  · intro f s tl lang fp dur now
    simp [create_report]

/-- **C8** (confirmed).  When no syntax tree can be produced, `analyze`
returns exactly one issue — category `"syntax_error"`, severity
`"critical"`, at the reported failure line, or line 1 when the error
carries no line attribute — performs no other analysis, and (being a
total function of the parse outcome) propagates no exception. -/
theorem claim_C8 :
    (∀ (e : SyntaxErrorInfo) (lines : List String),
      analyze (.error e) lines = [syntax_error_issue e lines] ∧
      (analyze (.error e) lines).length = 1 ∧
      ((analyze (.error e) lines).map fun i => (i.category, i.severity, i.line_number)) =
        [("syntax_error", "critical", e.lineno?.getD 1)]) ∧
    (∀ (msg : String) (lines : List String),
      (syntax_error_issue ⟨none, msg⟩ lines).line_number = 1) := by
  exact ⟨fun e lines => ⟨rfl, rfl, rfl⟩, fun msg lines => rfl⟩

/-- **C9** (corrected — counterexample).  Two invocations with identical
findings, issues, `total_lines` and report parameters do *not* produce
identical reports: `create_report` stamps `datetime.now()` into
`analysis_timestamp`, so invocations at different clock readings differ
in that field. -/
theorem claim_C9_counterexample :
    (create_report ⟨none, none, none⟩ [] 0 "python" none 0 0).analysis_timestamp = 0 ∧
    (create_report ⟨none, none, none⟩ [] 0 "python" none 0 1).analysis_timestamp = 1 ∧
    ((create_report ⟨none, none, none⟩ [] 0 "python" none 0 0 =
        create_report ⟨none, none, none⟩ [] 0 "python" none 0 1) = False) := by
  refine ⟨rfl, rfl, eq_false ?_⟩
  intro h
  have h2 := congrArg SecurityReport.analysis_timestamp h
  simp [create_report] at h2

/-- **C9** (amended).  The risk engine retains no state: the report is a
pure function of its inputs plus the wall clock, the clock reaches only
the `analysis_timestamp` field, and every other field coincides across
invocations with identical inputs; with an identical clock reading the
whole report is identical. -/
theorem claim_C9 :
    ∀ (f : GeminiFindings) (s : List StaticAnalysisIssue) (tl : Int) (lang : String)
      (fp : Option String) (dur : ℚ) (now₁ now₂ : Nat),
      (create_report f s tl lang fp dur now₁).analysis_timestamp = now₁ ∧
      (create_report f s tl lang fp dur now₁).language =
        (create_report f s tl lang fp dur now₂).language ∧
      (create_report f s tl lang fp dur now₁).file_path =
        (create_report f s tl lang fp dur now₂).file_path ∧
      (create_report f s tl lang fp dur now₁).risk_score =
        (create_report f s tl lang fp dur now₂).risk_score ∧
      (create_report f s tl lang fp dur now₁).summary =
        (create_report f s tl lang fp dur now₂).summary ∧
      (create_report f s tl lang fp dur now₁).vulnerabilities =
        (create_report f s tl lang fp dur now₂).vulnerabilities ∧
      (create_report f s tl lang fp dur now₁).dependencies_analysis =
        (create_report f s tl lang fp dur now₂).dependencies_analysis ∧
      (create_report f s tl lang fp dur now₁).total_lines =
        (create_report f s tl lang fp dur now₂).total_lines ∧
      (create_report f s tl lang fp dur now₁).scan_duration =
        (create_report f s tl lang fp dur now₂).scan_duration ∧
      (create_report f s tl lang fp dur now₁).static_analysis_summary =
        (create_report f s tl lang fp dur now₂).static_analysis_summary :=
  fun _ _ _ _ _ _ _ _ =>
    ⟨rfl, rfl, rfl, rfl, rfl, rfl, rfl, rfl, rfl, rfl⟩

/-- **C10** (confirmed).  The static-issue weight lookup falls back to
the logic table for every unrecognized kind, defaults to 1 for every
unrecognized severity, and is nonnegative for arbitrary strings; hence
the static sub-score is total and nonnegative on arbitrary inputs. -/
theorem claim_C10 :
    (∀ t sev : String, t ≠ "logic" → t ≠ "performance" → t ≠ "relevance" →
      t ≠ "complexity" → staticIssueWeight t sev = staticIssueWeight "logic" sev) ∧
    (∀ t sev : String, sev ≠ "low" → sev ≠ "medium" → sev ≠ "high" → sev ≠ "critical" →
      staticIssueWeight t sev = 1) ∧
    (∀ t sev : String, 0 ≤ staticIssueWeight t sev) ∧
    (∀ (s : List StaticAnalysisIssue) (tl : Int),
      0 ≤ compute_static_analysis_score s tl) := by
  refine ⟨?_, ?_, staticIssueWeight_nonneg, compute_static_analysis_score_nonneg⟩
  · intro t sev h1 h2 h3 h4
    unfold staticIssueWeight staticWeightsGet
    simp [h1, h2, h3, h4]
  · intro t sev h1 h2 h3 h4
    unfold staticIssueWeight staticWeightsGet staticWeightsLogic staticWeightsPerformance
      staticWeightsRelevance staticWeightsComplexity
    split_ifs <;> simp_all

/-- Witness for `claim_C10` at concrete inputs: an unrecognized kind
`"style"` uses the logic table, an unrecognized severity `"warning"`
weighs 1, and both weight and sub-score are nonnegative there. -/
theorem claim_C10_witness :
    staticIssueWeight "style" "high" = staticIssueWeight "logic" "high" ∧
    staticIssueWeight "logic" "warning" = 1 ∧
    0 ≤ staticIssueWeight "style" "warning" ∧
    0 ≤ compute_static_analysis_score [] 0 :=
  ⟨claim_C10.1 "style" "high" (by decide) (by decide) (by decide) (by decide),
   claim_C10.2.1 "logic" "warning" (by decide) (by decide) (by decide) (by decide),
   claim_C10.2.2.1 "style" "warning",
   claim_C10.2.2.2 [] 0⟩

/-- **C3** (corrected — counterexample).  The claim conditions on the
loop's *body* alone, but the source scans `ast.walk(node)` — the whole
`while` statement, its `else:` clause included.  In
`whileTrueElseBreakMod` the test is the literal `True` and the body
(`pass`) contains no `break` at any depth, yet no `"infinite_loop"`
issue is emitted, because a `break` inside a `for`-loop in the `while`'s
`else:` clause suppresses the rule. -/
theorem claim_C3_counterexample :
    stmtsHaveBreak [PyStmt.passS 2] = false ∧
    catCount "infinite_loop" (analyze (.ok whileTrueElseBreakMod) []) = 0 := by
  exact ⟨by decide, by decide⟩

/-- **C3** (amended).  A `while`-loop whose test is the literal `True`
and whose whole subtree — body *or* `else:` clause — contains no `break`
at any depth yields exactly one `"infinite_loop"` issue of severity
`"high"` at the loop's line, and a `break` anywhere in that subtree
suppresses it: the per-loop check emits exactly that issue under exactly
that condition, the full analysis contains exactly one
`"infinite_loop"` issue per qualifying loop, and the two concrete
programs (bare `while True: pass`, and `while True:` with a `break`
buried in an `if` inside a `for`) behave as claimed. -/
theorem claim_C3 :
    (∀ (test : PyExpr) (body orelse : List PyStmt) (ln : Nat),
      check_while_loop_logic test body orelse ln =
        if isConstTrue test && !(stmtsHaveBreak body || stmtsHaveBreak orelse) then
          [{ type := "logic", category := "infinite_loop", severity := "high"
             line_number := ln, code_snippet := "while True:"
             description := "Infinite loop without break statement"
             impact := "Will cause program to hang indefinitely"
             remediation := "Add break condition or use a different loop structure" }]
        else []) ∧
    (∀ (m : PyModule) (lines : List String),
      catCount "infinite_loop" (analyze (.ok m) lines) = stmtsInfLoops m) ∧
    ((analyze (.ok whileTrueNoBreakMod) ["while True:", "    pass"]).map
      fun i => (i.category, i.severity, i.line_number)) = [("infinite_loop", "high", 1)] ∧
    catCount "infinite_loop" (analyze (.ok whileTrueDeepBreakMod) []) = 0 := by
  refine ⟨?_, ?_, by decide, by decide⟩
  · intro test body orelse ln
    unfold check_while_loop_logic
    cases h : isConstTrue test <;>
      cases h2 : stmtsHaveBreak body || stmtsHaveBreak orelse <;> simp [h, h2]
  · intro m lines
    rw [catCount_analyze_ok "infinite_loop" m lines (by decide) (by decide) (by decide)
      (by decide) (by decide) (by decide)]
    exact catCount_inf_visitStmts lines m

/-- **C4** (confirmed).  The complexity of a function subtree starts at 1
and adds 1 per conditional/loop/handler/with-block and `N − 1` per
boolean expression with `N` operands; a function of complexity 11 yields
exactly one `"high_cyclomatic_complexity"` issue with severity `"low"`
and metric 11, one of complexity 21 yields severity `"medium"`, and
complexity ≤ 10 yields none. -/
theorem claim_C4 :
    (∀ (name : String) (args : List String) (body : List PyStmt) (ln eln : Nat),
      cyclomaticComplexityOf (.functionDef name args body ln eln) = 1 + stmtCCList body) ∧
    (∀ (lines : List String) (name : String) (body : List PyStmt) (ln eln : Nat),
      (check_function_complexity lines name body ln eln).filter
          (fun i => i.category == "high_cyclomatic_complexity") =
        high_cc_check name body ln eln) ∧
    (∀ (m : PyModule) (lines : List String),
      catCount "high_cyclomatic_complexity" (analyze (.ok m) lines) = stmtsHighCCFns m) ∧
    cyclomaticComplexityOf (fnWithIfs 10) = 11 ∧
    ((analyze (.ok [fnWithIfs 10]) []).filter
        (fun i => i.category == "high_cyclomatic_complexity")).map
      (fun i => (i.severity, i.line_number, i.metric_value)) = [("low", 1, some (11 : ℚ))] ∧
    cyclomaticComplexityOf (fnWithIfs 20) = 21 ∧
    ((analyze (.ok [fnWithIfs 20]) []).filter
        (fun i => i.category == "high_cyclomatic_complexity")).map
      (fun i => (i.severity, i.line_number, i.metric_value)) = [("medium", 1, some (21 : ℚ))] ∧
    cyclomaticComplexityOf (fnWithIfs 9) = 10 ∧
    catCount "high_cyclomatic_complexity" (analyze (.ok [fnWithIfs 9]) []) = 0 := by
  refine ⟨fun name args body ln eln => rfl, ?_, ?_, by decide, by decide, by decide, by decide,
    by decide, by decide⟩
  · intro lines name body ln eln
    rw [check_function_complexity, List.filter_append]
    have h1 : (long_function_check lines name ln eln).filter
        (fun i => i.category == "high_cyclomatic_complexity") = [] := by
      unfold long_function_check
      dsimp only
      split_ifs <;> simp
    have h2 : (high_cc_check name body ln eln).filter
        (fun i => i.category == "high_cyclomatic_complexity") =
        high_cc_check name body ln eln := by
      unfold high_cc_check
      dsimp only
      split_ifs <;> simp
    rw [h1, h2, List.nil_append]
  · intro m lines
    rw [catCount_analyze_ok "high_cyclomatic_complexity" m lines (by decide) (by decide)
      (by decide) (by decide) (by decide) (by decide)]
    exact catCount_hcc_visitStmts lines m

/-- **C5** (corrected — counterexample).  Complexity is *not* isolated
per function for nested definitions: `outerC5` has no branching of its
own (its isolated complexity, per the spec's description, is 1), yet the
code computes complexity 12 for it — the 11 `if`-statements inside the
nested `inner` leak into the enclosing function's score — and the
analysis flags *both* functions with metric 12. -/
theorem claim_C5_counterexample :
    cyclomaticComplexityOf outerC5 = 12 ∧
    cyclomaticComplexityIsolated outerC5 = 1 ∧
    ((analyze (.ok [outerC5]) []).filter
        (fun i => i.category == "high_cyclomatic_complexity")).map
      (fun i => (i.line_number, i.metric_value)) =
      [(1, some (12 : ℚ)), (2, some (12 : ℚ))] := by
  refine ⟨by decide, by decide, by decide⟩

/-- **C5** (amended).  Every function's complexity starts from the base
value 1 plus the contributions of its whole subtree, but that subtree
*includes* nested function definitions: a nested definition contributes
its body's full count to the enclosing function's score (the nested
`functionDef` node itself adds 0). -/
theorem claim_C5 :
    (∀ (name : String) (args : List String) (body : List PyStmt) (ln eln : Nat),
      cyclomaticComplexityOf (.functionDef name args body ln eln) = 1 + stmtCCList body) ∧
    (∀ (name name2 : String) (args args2 : List String) (inner pre post : List PyStmt)
        (ln1 eln1 ln2 eln2 : Nat),
      cyclomaticComplexityOf
          (.functionDef name args (pre ++ .functionDef name2 args2 inner ln2 eln2 :: post)
            ln1 eln1) =
        1 + stmtCCList pre + stmtCCList inner + stmtCCList post) := by
  refine ⟨fun name args body ln eln => rfl, ?_⟩
  intro name name2 args args2 inner pre post ln1 eln1 ln2 eln2
  rw [cyclomaticComplexityOf_functionDef, stmtCCList_append]
  show 1 + (stmtCCList pre + (stmtCC (.functionDef name2 args2 inner ln2 eln2)
    + stmtCCList post)) = _
  show 1 + (stmtCCList pre + (stmtCCList inner + stmtCCList post)) = _
  omega

/-- **C6** (corrected — counterexample).  A `while`-loop whose body
contains a `for`-loop produces *no* `"nested_loops"` issue anywhere:
`visit_While` never runs the nested-loop check, so the claim fails for
while-loops (the inner `for` here contains no further loop, so it emits
none either). -/
theorem claim_C6_counterexample :
    stmtsContainLoop [PyStmt.forS "i" (.name "xs") [.passS 3] [] 2] = true ∧
    catCount "nested_loops"
      (analyze (.ok whileForMod) ["while c:", "    for i in xs:", "        pass"]) = 0 := by
  exact ⟨by decide, by decide⟩

/-- **C6** (amended).  Only `for`-loops are checked for nesting: every
`for`-loop whose subtree contains another loop yields one
`"nested_loops"` issue of severity `"medium"` at the `for`-loop's line,
`while`-loops never yield one, and the full analysis contains exactly
one such issue per qualifying `for`-loop. -/
theorem claim_C6 :
    (∀ (lines : List String) (body orelse : List PyStmt) (ln : Nat),
      nested_loops_check lines body orelse ln =
        if stmtsContainLoop body || stmtsContainLoop orelse then
          [{ type := "performance", category := "nested_loops", severity := "medium"
             line_number := ln
             code_snippet := get_line_snippet lines ln
             description := "Nested loops detected - potential O(nÂ²) or higher complexity"
             impact := "May cause performance issues with large datasets"
             remediation := "Consider algorithm optimization, caching, or data structure changes" }]
        else []) ∧
    (∀ (m : PyModule) (lines : List String),
      catCount "nested_loops" (analyze (.ok m) lines) = stmtsForNested m) ∧
    ((analyze (.ok forWhileMod) ["for i in xs:", "    while c:", "        pass"]).filter
        (fun i => i.category == "nested_loops")).map
      (fun i => (i.severity, i.line_number)) = [("medium", 1)] := by
  refine ⟨fun lines body orelse ln => rfl, ?_, by decide⟩
  intro m lines
  rw [catCount_analyze_ok "nested_loops" m lines (by decide) (by decide) (by decide)
    (by decide) (by decide) (by decide)]
  exact catCount_nested_visitStmts lines m

end CodeGate
